import Mathlib

/-!
NYC Bathroom Finder: normalization, distance annotation, filtering and ranking.

A shallow embedding of `src/utils/filters.js` (`isCurrentlyOpen`, `urgentSort`,
`applyFilters`), of `addDistanceToBathrooms` in `src/utils/distance.js`, of
`normalizeBathroom` and the batch step of `fetchAllBathrooms` in
`src/services/bathroomAPI.js`, and of the value `displayedBathrooms` of `src/App.jsx`.

Modelling conventions.

* A JavaScript number stored in a `distance` field or a filter config is a finite double;
  every finite double is a rational number, and the code below only compares such numbers
  and takes the sign of a difference of two of them.  Both are exact on doubles (the
  difference of two finite doubles is zero, negative or positive exactly when the exact
  difference is), so these numbers are modelled as `ℚ`.
* A field that is `undefined`, `null` or `NaN` is modelled as `none`: the three values
  are falsy and the code only ever tests such a field for truthiness before using it.
* A number that may be `NaN` or infinite where the code tells these apart (a parsed
  coordinate, a comparator result) is a `JsNumber`.
* `Array.prototype.sort` is a stable sort (ECMAScript 2019 and later) driven by the sign
  of the comparator; it is modelled by `jsSort`.
* `calculateDistance` of `src/utils/distance.js` is double arithmetic over the engine's
  `Math.sin`, `Math.cos`, `Math.sqrt` and `Math.atan2`; it has no exact computable
  counterpart and is not embedded.  The functions that call it take it as a parameter.
* `Math.random()` and the text of a number inside a template literal are parameters of
  `normalizeBathroom`.
* `parseFloat` on a text reads the longest numeric start and rounds its decimal value to
  the nearest double (`toDouble`), with overflow to `Infinity` and underflow to 0.
* A call that may throw returns an `Except JsError`; the only exception in this code is
  the `TypeError` of `hours.toLowerCase()` on a truthy value that is not text.
-/

namespace BathroomFinder

/-- A JavaScript number that may be non-finite: `NaN`, `Infinity`, `-Infinity` or a
finite value (`-0` is identified with `0`; both are falsy). -/
inductive JsNumber where
  | nan
  | posInf
  | negInf
  | fin (q : ℚ)
  deriving DecidableEq, Repr

/-- A scalar JavaScript value, as a field of a parsed JSON record holds it. -/
inductive JsVal where
  | undefined
  | null
  | bool (b : Bool)
  | num (n : JsNumber)
  | str (s : String)
  deriving DecidableEq, Repr

/-- The reference point `{lat, lng}` of the user (`userLocation` in the source). -/
structure Location where
  lat : ℚ
  lng : ℚ
  deriving DecidableEq, Repr

/-- The canonical bathroom record produced by `normalizeBathroom`, with the optional
`distance` field added by `addDistanceToBathrooms`. -/
structure Bathroom where
  id : JsVal
  name : String
  latitude : JsNumber
  longitude : JsNumber
  address : String
  hours : String
  isAccessible : Bool
  isOpen : Bool
  rating : ℚ
  type : String
  distance : Option ℚ
  deriving DecidableEq, Repr

/-- The filter settings held by `App` (`filters` in the source). -/
structure Filters where
  openNow : Bool
  accessibleOnly : Bool
  maxDistance : ℚ
  type : String
  deriving DecidableEq, Repr

/-- JavaScript truthiness of a number: every number but `0` (and `NaN`, not a `ℚ`). -/
def truthyNum (x : ℚ) : Bool := decide (x ≠ 0)

/-- JavaScript truthiness of an optional number field. -/
def truthyOptNum : Option ℚ → Bool
  | none => false
  | some x => truthyNum x

/-- JavaScript truthiness of a string: every string but the empty one. -/
def truthyStr (s : String) : Bool := decide (s ≠ "")

/-- The expression `x || 0` on an optional number field. -/
def orZero : Option ℚ → ℚ
  | none => 0
  | some x => if truthyNum x then x else 0

/-- Auxiliary to `includes`: does `needle` start at some position of the character
list? -/
def includesFrom (needle : List Char) : List Char → Bool
  | [] => needle.isEmpty
  | c :: cs => needle.isPrefixOf (c :: cs) || includesFrom needle cs

/-- The method `String.prototype.includes`: `needle` occurs in `s` as a contiguous run. -/
def includes (s needle : String) : Bool := includesFrom needle.data s.data

/-- The method `String.prototype.toLowerCase`, on the ASCII letters; the digits and the
slash that `isCurrentlyOpen` looks for are left as they are. -/
def toLowerCase (s : String) : String := ⟨s.data.map Char.toLower⟩

/-- The function `isCurrentlyOpen(hours)` of `filters.js`; `none` is a missing
(`null`/`undefined`) argument. -/
def isCurrentlyOpen (hours : Option String) : Bool :=
  match hours with
  | none => false
  | some h =>
    if !truthyStr h then false
    else if includes (toLowerCase h) "24" || includes (toLowerCase h) "24/7" then true
    else true

/-- The stable sort `Array.prototype.sort(compareFn)`: `a` is placed before `b` when
`compareFn(a, b) ≤ 0`, and elements the comparator does not separate keep their input
order. -/
def jsSort {α : Type} (compareFn : α → α → ℚ) (l : List α) : List α :=
  l.insertionSort (fun a b => compareFn a b ≤ 0)

/-- The comparator passed to `sort` inside `urgentSort`. -/
def urgentCompare (a b : Bathroom) : ℚ :=
  if a.isAccessible && !b.isAccessible then -1
  else if !a.isAccessible && b.isAccessible then 1
  else orZero a.distance - orZero b.distance

/-- The function `urgentSort(bathrooms, userLocation)` of `filters.js`. -/
def urgentSort (bathrooms : List Bathroom) (userLocation : Option Location) :
    List Bathroom :=
  if userLocation.isNone || bathrooms.length == 0 then bathrooms
  else
    let openBathrooms := bathrooms.filter (fun b => b.isOpen)
    jsSort urgentCompare openBathrooms

/-- The function `applyFilters(bathrooms, filters)` of `filters.js`. -/
def applyFilters (bathrooms : List Bathroom) (filters : Filters) : List Bathroom :=
  let filtered := bathrooms
  let filtered := if filters.openNow then filtered.filter (fun b => b.isOpen) else filtered
  let filtered :=
    if filters.accessibleOnly then filtered.filter (fun b => b.isAccessible) else filtered
  let filtered :=
    if truthyNum filters.maxDistance && decide (filters.maxDistance > 0) then
      filtered.filter
        (fun b => !truthyOptNum b.distance ||
          (match b.distance with
           | some d => decide (d ≤ filters.maxDistance)
           | none => false))
    else filtered
  let filtered :=
    if truthyStr filters.type && decide (filters.type ≠ "all") then
      filtered.filter (fun b => decide (b.type = filters.type))
    else filtered
  filtered

/-- First step of `applyFilters`: the open-status filter, run when `openNow` is set. -/
def stageOpenNow (filters : Filters) (filtered : List Bathroom) : List Bathroom :=
  if filters.openNow then filtered.filter (fun b => b.isOpen) else filtered

/-- Second step of `applyFilters`: the accessibility filter, run when `accessibleOnly` is
set. -/
def stageAccessible (filters : Filters) (filtered : List Bathroom) : List Bathroom :=
  if filters.accessibleOnly then filtered.filter (fun b => b.isAccessible) else filtered

/-- Third step of `applyFilters`: the distance filter, run when `maxDistance` is truthy
and greater than 0. -/
def stageDistance (filters : Filters) (filtered : List Bathroom) : List Bathroom :=
  if truthyNum filters.maxDistance && decide (filters.maxDistance > 0) then
    filtered.filter
      (fun b => !truthyOptNum b.distance ||
        (match b.distance with
         | some d => decide (d ≤ filters.maxDistance)
         | none => false))
  else filtered

/-- Fourth step of `applyFilters`: the type filter, run when `type` is truthy and not
`"all"`. -/
def stageType (filters : Filters) (filtered : List Bathroom) : List Bathroom :=
  if truthyStr filters.type && decide (filters.type ≠ "all") then
    filtered.filter (fun b => decide (b.type = filters.type))
  else filtered

/-- The keep-condition of the filter engine in the words of the specification: a limit
of exactly 0 and a type of exactly `"all"` are the disabled settings. -/
def keptAsStated (config : Filters) (b : Bathroom) : Bool :=
  (!config.openNow || b.isOpen) &&
  (!config.accessibleOnly || b.isAccessible) &&
  (decide (config.maxDistance = 0) || b.distance.isNone ||
    (match b.distance with
     | some d => decide (d ≤ config.maxDistance)
     | none => false)) &&
  (decide (config.type = "all") || decide (b.type = config.type))

/-- The keep-condition with the disabled settings the code has: a limit that is not
greater than 0, and a type that is empty or `"all"`. -/
def keptByGuards (config : Filters) (b : Bathroom) : Bool :=
  (!config.openNow || b.isOpen) &&
  (!config.accessibleOnly || b.isAccessible) &&
  (decide (config.maxDistance ≤ 0) || b.distance.isNone ||
    (match b.distance with
     | some d => decide (d ≤ config.maxDistance)
     | none => false)) &&
  (decide (config.type = "") || decide (config.type = "all") ||
    decide (b.type = config.type))

/-- Two configs conflict when they name two different types, neither of them `"all"`. -/
def conflicting (cfg1 cfg2 : Filters) : Prop :=
  cfg1.type ≠ "all" ∧ cfg2.type ≠ "all" ∧ cfg1.type ≠ cfg2.type

instance (cfg1 cfg2 : Filters) : Decidable (conflicting cfg1 cfg2) := by
  unfold conflicting
  infer_instance

/-- The merge of two configs in the words of the specification: the flags are or-ed, the
limit is the smaller of the non-zero limits, the type is the one that is not `"all"`. -/
def mergeAsStated (cfg1 cfg2 : Filters) : Filters :=
  { openNow := cfg1.openNow || cfg2.openNow
    accessibleOnly := cfg1.accessibleOnly || cfg2.accessibleOnly
    maxDistance :=
      if cfg1.maxDistance = 0 then cfg2.maxDistance
      else if cfg2.maxDistance = 0 then cfg1.maxDistance
      else min cfg1.maxDistance cfg2.maxDistance
    type := if cfg1.type ≠ "all" then cfg1.type else cfg2.type }

/-- The merge of two configs where a limit counts as enabled when it is greater than 0,
as the guard of `applyFilters` has it; the rest is as in `mergeAsStated`. -/
def mergePositive (cfg1 cfg2 : Filters) : Filters :=
  { openNow := cfg1.openNow || cfg2.openNow
    accessibleOnly := cfg1.accessibleOnly || cfg2.accessibleOnly
    maxDistance :=
      if cfg1.maxDistance ≤ 0 then cfg2.maxDistance
      else if cfg2.maxDistance ≤ 0 then cfg1.maxDistance
      else min cfg1.maxDistance cfg2.maxDistance
    type := if cfg1.type ≠ "all" then cfg1.type else cfg2.type }

/-- The function `addDistanceToBathrooms(bathrooms, userLocation)` of `distance.js`.
The function `calculateDistance` it calls is a parameter: it is double arithmetic over
the engine's trigonometry, and since it returns `R * 2 * atan2(..)` its result is a
finite number or `NaN` (`none`). -/
def addDistanceToBathrooms
    (calculateDistance : ℚ → ℚ → JsNumber → JsNumber → Option ℚ)
    (bathrooms : List Bathroom) (userLocation : Option Location) : List Bathroom :=
  match userLocation with
  | none => bathrooms
  | some loc =>
    bathrooms.map (fun bathroom =>
      { bathroom with
        distance := calculateDistance loc.lat loc.lng bathroom.latitude bathroom.longitude })

/-- The expression `x || Infinity` on an optional number field. -/
def orInfinity : Option ℚ → JsNumber
  | none => .posInf
  | some x => if truthyNum x then .fin x else .posInf

/-- Subtraction of JavaScript numbers. -/
def JsNumber.sub : JsNumber → JsNumber → JsNumber
  | .nan, _ => .nan
  | _, .nan => .nan
  | .posInf, .posInf => .nan
  | .posInf, _ => .posInf
  | .negInf, .negInf => .nan
  | .negInf, _ => .negInf
  | .fin _, .posInf => .negInf
  | .fin _, .negInf => .posInf
  | .fin a, .fin b => .fin (a - b)

/-- What `Array.prototype.sort` makes of a comparator result: `NaN` counts as 0, and of
an infinite result only the sign matters. -/
def JsNumber.sortValue : JsNumber → ℚ
  | .nan => 0
  | .posInf => 1
  | .negInf => -1
  | .fin q => q

/-- The comparator `(a, b) => (a.distance || Infinity) - (b.distance || Infinity)` of
`App`. -/
def distanceCompare (a b : Bathroom) : ℚ :=
  ((orInfinity a.distance).sub (orInfinity b.distance)).sortValue

/-- The memoised value `displayedBathrooms` of `App`, as a function of the state it is
computed from. -/
def displayedBathrooms
    (calculateDistance : ℚ → ℚ → JsNumber → JsNumber → Option ℚ)
    (allBathrooms : List Bathroom) (userLocation : Option Location) (urgentMode : Bool)
    (filters : Filters) : List Bathroom :=
  let bathroomsWithDistance :=
    addDistanceToBathrooms calculateDistance allBathrooms userLocation
  let result := bathroomsWithDistance
  if urgentMode then urgentSort result userLocation
  else
    let result := applyFilters result filters
    if userLocation.isSome then jsSort distanceCompare result else result

/-- A stand-in for `calculateDistance` on the examples: 0 between identical points, the
sum of the coordinate differences otherwise, `NaN` on a coordinate that is not finite. -/
def gridDistance (lat1 lon1 : ℚ) (lat2 lon2 : JsNumber) : Option ℚ :=
  match lat2, lon2 with
  | .fin a, .fin b => some (|a - lat1| + |b - lon1|)
  | _, _ => none

/-- A record at the given finite coordinates, open and accessible, without a distance. -/
def mkAt (id : String) (latitude longitude : ℚ) : Bathroom :=
  { id := .str id, name := "Public Restroom", latitude := .fin latitude,
    longitude := .fin longitude, address := "Address not available",
    hours := "Hours vary", isAccessible := true, isOpen := true, rating := 4,
    type := "public", distance := none }

/-- JavaScript truthiness of a number that may be non-finite: all but `0` and `NaN`. -/
def JsNumber.truthy : JsNumber → Bool
  | .nan => false
  | .posInf => true
  | .negInf => true
  | .fin q => truthyNum q

/-- The global function `isNaN` on a number. -/
def JsNumber.isNaN : JsNumber → Bool
  | .nan => true
  | _ => false

/-- JavaScript truthiness of a scalar value. -/
def JsVal.truthy : JsVal → Bool
  | .undefined => false
  | .null => false
  | .bool b => b
  | .num n => n.truthy
  | .str s => truthyStr s

/-- The expression `a || b` on scalar values. -/
def orVal (a b : JsVal) : JsVal := if a.truthy then a else b

/-- The expression `a || b` where `a` is an optional text and `b` a text. -/
def orStr (a : Option String) (b : String) : String :=
  match a with
  | some s => if truthyStr s then s else b
  | none => b

/-- White space and line terminators that `parseFloat` skips at the start of its
argument, by code point. -/
def isWhiteSpace (c : Char) : Bool :=
  [9, 10, 11, 12, 13, 32, 160, 5760, 8232, 8233, 8239, 8287, 12288, 65279].contains c.toNat
    || (8192 ≤ c.toNat && c.toNat ≤ 8202)

/-- The decimal digits, by code point. -/
def isDigit (c : Char) : Bool := 48 ≤ c.toNat && c.toNat ≤ 57

/-- The number written by a run of decimal digits. -/
def digitsValue (ds : List Char) : Nat :=
  ds.foldl (fun n c => 10 * n + (c.toNat - 48)) 0

/-- What `parseFloat` reads at the start of a text: nothing numeric, a signed
`Infinity`, or a signed decimal `mantissa * 10 ^ exponent`. -/
inductive Scanned where
  | notNumber
  | infinity (negative : Bool)
  | decimal (negative : Bool) (mantissa : Nat) (exponent : Int)
  deriving DecidableEq, Repr

/-- The exponent part `e`/`E`, optional sign, digits; it counts only when at least one
digit follows, and is 0 otherwise. -/
def scanExponent (cs : List Char) : Int :=
  match cs with
  | [] => 0
  | e :: rest =>
    if e.toNat = 101 || e.toNat = 69 then
      match rest with
      | [] => 0
      | c :: ds =>
        if c.toNat = 45 then
          (if (ds.takeWhile isDigit).isEmpty then 0
           else -((digitsValue (ds.takeWhile isDigit) : Nat) : Int))
        else if c.toNat = 43 then
          (if (ds.takeWhile isDigit).isEmpty then 0
           else ((digitsValue (ds.takeWhile isDigit) : Nat) : Int))
        else
          (if ((c :: ds).takeWhile isDigit).isEmpty then 0
           else ((digitsValue ((c :: ds).takeWhile isDigit) : Nat) : Int))
    else 0

/-- The unsigned part of the text `parseFloat` reads: `Infinity`, or digits with an
optional fraction and exponent; at least one digit is needed. -/
def scanUnsigned (negative : Bool) (body : List Char) : Scanned :=
  if "Infinity".data.isPrefixOf body then .infinity negative
  else
    let intDigits := body.takeWhile isDigit
    let afterInt := body.dropWhile isDigit
    let fracDigits :=
      match afterInt with
      | c :: r => if c.toNat = 46 then r.takeWhile isDigit else []
      | [] => []
    let afterFrac :=
      match afterInt with
      | c :: r => if c.toNat = 46 then r.dropWhile isDigit else afterInt
      | [] => []
    if intDigits.isEmpty && fracDigits.isEmpty then .notNumber
    else
      .decimal negative (digitsValue (intDigits ++ fracDigits))
        (scanExponent afterFrac - (fracDigits.length : Int))

/-- The longest numeric start of a text after leading white space, with its sign. -/
def scanFloat (cs : List Char) : Scanned :=
  match cs.dropWhile isWhiteSpace with
  | [] => .notNumber
  | c :: r =>
    if c.toNat = 45 then scanUnsigned true r
    else if c.toNat = 43 then scanUnsigned false r
    else scanUnsigned false (c :: r)

/-- Auxiliary to `floorLog2`: the least `s`, counted up from the given one, with
`n < 2 ^ 2 ^ s`. -/
def log2Steps (n : Nat) : Nat → Nat → Nat
  | 0, s => s
  | fuel + 1, s => if n >>> (2 ^ s) = 0 then s else log2Steps n fuel (s + 1)

/-- Auxiliary to `floorLog2`: binary search, `s` bits deep, for the greatest `e` at or
above `lo` with `2 ^ e ≤ n`. -/
def log2Search (n : Nat) : Nat → Nat → Nat
  | 0, lo => lo
  | s + 1, lo =>
    if n >>> (lo + 2 ^ s) = 0 then log2Search n s lo else log2Search n s (lo + 2 ^ s)

/-- The greatest `e` with `2 ^ e ≤ n`, for a positive `n`. -/
def floorLog2 (n : Nat) : Nat := log2Search n (log2Steps n n 0) 0

/-- The integer nearest to `num / den`, the even one of the two on a tie. -/
def roundHalfEven (num den : Nat) : Nat :=
  if 2 * (num % den) < den then num / den
  else if den < 2 * (num % den) then num / den + 1
  else num / den + (num / den) % 2

/-- The greatest `e` with `2 ^ e ≤ num / den`, for positive `num` and `den`. -/
def binaryExponent (num den : Nat) : Int :=
  let e0 : Int := (floorLog2 num : Int) - (floorLog2 den : Int)
  if 0 ≤ e0 then (if den <<< e0.toNat ≤ num then e0 else e0 - 1)
  else (if den ≤ num <<< (-e0).toNat then e0 else e0 - 1)

/-- The double nearest to the positive fraction `num / den`, as a pair `(n, k)` standing
for `n * 2 ^ k`: 53 significant bits from the binary exponent on, and the fixed spacing
`2 ^ -1074` below the normal range; ties go to the even significand. -/
def doubleParts (num den : Nat) : Nat × Int :=
  let k := max (binaryExponent num den) (-1022) - 52
  if 0 ≤ k then (roundHalfEven num (den <<< k.toNat), k)
  else (roundHalfEven (num <<< (-k).toNat) den, k)

/-- The Number value of the signed fraction `num / den`: the nearest double, `Infinity`
when that would be `2 ^ 1024` or more, `0` when the fraction rounds to nothing. -/
def toDouble (negative : Bool) (num den : Nat) : JsNumber :=
  if num = 0 then .fin 0
  else if 972 ≤ (doubleParts num den).2 ||
      ((doubleParts num den).2 == 971 && 2 ^ 53 ≤ (doubleParts num den).1) then
    (if negative then .negInf else .posInf)
  else
    .fin ((if negative then -1 else 1) * ((doubleParts num den).1 : ℚ) *
      (2 : ℚ) ^ (doubleParts num den).2)

/-- The number a scanned text stands for: the decimal `mantissa * 10 ^ exponent`,
rounded to the nearest double. -/
def Scanned.toNumber : Scanned → JsNumber
  | .notNumber => .nan
  | .infinity negative => if negative then .negInf else .posInf
  | .decimal negative mantissa exponent =>
    if 0 ≤ exponent then toDouble negative (mantissa * 10 ^ exponent.toNat) 1
    else toDouble negative mantissa (10 ^ (-exponent).toNat)

/-- The global function `parseFloat`: its argument is turned into a text and the
longest numeric start of the text is read.  A number reads back as itself, and the texts
of `undefined`, `null`, `true` and `false` have no numeric start. -/
def parseFloat : JsVal → JsNumber
  | .str s => (scanFloat s.data).toNumber
  | .num n => n
  | .undefined => .nan
  | .null => .nan
  | .bool _ => .nan

/-- The object `the_geom` of a raw record, with its optional `coordinates` array. -/
structure Geometry where
  coordinates : Option (List JsVal)
  deriving DecidableEq, Repr

/-- A raw record of one of the datasets, with the fields `normalizeBathroom` reads.  The
coordinate, hours, accessibility and identifier fields hold any scalar value; the name
and address fields, which are only carried along, are text or absent.  A field that is
not given is `undefined`. -/
structure RawBathroom where
  latitude : JsVal := .undefined
  lat : JsVal := .undefined
  longitude : JsVal := .undefined
  lon : JsVal := .undefined
  lng : JsVal := .undefined
  the_geom : Option Geometry := none
  hours_of_operation : JsVal := .undefined
  hours : JsVal := .undefined
  operation_hours : JsVal := .undefined
  ada_accessible : JsVal := .undefined
  accessible : JsVal := .undefined
  handicap_accessible : JsVal := .undefined
  objectid : JsVal := .undefined
  id : JsVal := .undefined
  name : Option String := none
  location_name : Option String := none
  site_name : Option String := none
  park_name : Option String := none
  address : Option String := none
  location : Option String := none
  street_address : Option String := none
  deriving DecidableEq, Repr

/-- An exception thrown by the code: the `TypeError` of a call of something that is not
a function. -/
inductive JsError where
  | typeError
  deriving DecidableEq, Repr

/-- The function `isCurrentlyOpen(hours)` on an argument of any scalar kind.  On text and
on a missing argument it is `isCurrentlyOpen`; the other falsy values stop at
`if (!hours) return false`; on a truthy value that is not text `hours.toLowerCase` is not
a function and the call throws. -/
def isCurrentlyOpenOf (hours : JsVal) : Except JsError Bool :=
  match hours with
  | .str h => .ok (isCurrentlyOpen (some h))
  | .undefined => .ok (isCurrentlyOpen none)
  | .null => .ok (isCurrentlyOpen none)
  | other => if !other.truthy then .ok false else .error .typeError

/-- The text a value holds, when it is text. -/
def JsVal.text? : JsVal → Option String
  | .str s => some s
  | _ => none

/-- The text of a value that is text, as a record field of text holds it. -/
def JsVal.toText (v : JsVal) : String := v.text?.getD ""

/-- The method `Array.prototype.map` with a callback that may throw: the elements are
mapped in order and the first exception ends the call. -/
def mapThrowing {α β : Type} (f : α → Except JsError β) : List α → Except JsError (List β)
  | [] => .ok []
  | a :: rest =>
    match f a with
    | .error e => .error e
    | .ok b =>
      match mapThrowing f rest with
      | .error e => .error e
      | .ok bs => .ok (b :: bs)

/-- The expression `raw.the_geom?.coordinates?.[i]`. -/
def geomCoordinate (the_geom : Option Geometry) (i : Nat) : JsVal :=
  match the_geom with
  | none => .undefined
  | some g =>
    match g.coordinates with
    | none => .undefined
    | some cs => cs.getD i .undefined

/-- The constant `latitude` of `normalizeBathroom`: the resolved latitude. -/
def resolvedLatitude (raw : RawBathroom) : JsNumber :=
  parseFloat (orVal (orVal raw.latitude raw.lat) (geomCoordinate raw.the_geom 1))

/-- The constant `longitude` of `normalizeBathroom`: the resolved longitude. -/
def resolvedLongitude (raw : RawBathroom) : JsNumber :=
  parseFloat
    (orVal (orVal (orVal raw.longitude raw.lon) raw.lng) (geomCoordinate raw.the_geom 0))

/-- The test `!latitude || !longitude || isNaN(latitude) || isNaN(longitude)` of
`normalizeBathroom`. -/
def invalidCoordinates (latitude longitude : JsNumber) : Bool :=
  !latitude.truthy || !longitude.truthy || latitude.isNaN || longitude.isNaN

/-- The constant `accessible` of `normalizeBathroom`. -/
def resolvedAccessible (raw : RawBathroom) : Bool :=
  decide (raw.ada_accessible = .str "Y") ||
  decide (raw.ada_accessible = .bool true) ||
  decide (raw.accessible = .str "Y") ||
  decide (raw.accessible = .bool true) ||
  decide (raw.handicap_accessible = .str "Y")

/-- The constant `hours` of `normalizeBathroom`: the resolved hours. -/
def resolvedHours (raw : RawBathroom) : JsVal :=
  orVal (orVal (orVal raw.hours_of_operation raw.hours) raw.operation_hours)
    (.str "Hours vary")

/-- The function `normalizeBathroom(raw, type)` of `bathroomAPI.js`: it returns `null`
(`.ok none`), returns a record, or throws when `isCurrentlyOpen(hours)` does.  The
`hours` of a returned record are text, since `hours` is truthy and `isCurrentlyOpen`
throws on every other truthy value.  The conversion of a number to text inside the
template literal and the value drawn by `Math.random()` are parameters. -/
def normalizeBathroom (numberToString : JsNumber → String) (random : ℚ)
    (raw : RawBathroom) (type : String) : Except JsError (Option Bathroom) :=
  let latitude := resolvedLatitude raw
  let longitude := resolvedLongitude raw
  if invalidCoordinates latitude longitude then .ok none
  else
    let hours := resolvedHours raw
    let accessible := resolvedAccessible raw
    match isCurrentlyOpenOf hours with
    | .error e => .error e
    | .ok isOpen =>
      .ok (some
        { id :=
            orVal (orVal raw.objectid raw.id)
              (.str (type ++ "-" ++ numberToString latitude ++ "-" ++
                numberToString longitude))
          name :=
            orStr raw.name (orStr raw.location_name (orStr raw.site_name
              (orStr raw.park_name "Public Restroom")))
          latitude := latitude
          longitude := longitude
          address :=
            orStr raw.address (orStr raw.location
              (orStr raw.street_address "Address not available"))
          hours := hours.toText
          isAccessible := accessible
          isOpen := isOpen
          rating := 7 / 2 + random * 1
          type := type
          distance := none })

/-- The step `dataset.map(b => normalizeBathroom(b, type))` of `fetchAllBathrooms`; the
record at position `i` gets the draw `random i`, and an exception of
`normalizeBathroom` ends the step. -/
def normalizeDataset (numberToString : JsNumber → String) (random : Nat → ℚ)
    (dataset : List RawBathroom) (type : String) : Except JsError (List (Option Bathroom)) :=
  mapThrowing (fun p => normalizeBathroom numberToString (random p.1) p.2 type)
    dataset.enum

/-- The step `.filter(b => b !== null)` of `fetchAllBathrooms`. -/
def removeInvalid (normalized : List (Option Bathroom)) : List (Option Bathroom) :=
  normalized.filter (fun b => decide (b ≠ none))

/-- The constant `allBathrooms` of `fetchAllBathrooms`: the three datasets normalized
under their types, one after the other, put together, without the invalid entries.  An
exception leaves the `try` block for the `catch`, before the constant has a value. -/
def allBathrooms (numberToString : JsNumber → String)
    (random1 random2 random3 : Nat → ℚ)
    (operational automatic parks : List RawBathroom) :
    Except JsError (List (Option Bathroom)) :=
  match normalizeDataset numberToString random1 operational "public" with
  | .error e => .error e
  | .ok normalized1 =>
    match normalizeDataset numberToString random2 automatic "apt" with
    | .error e => .error e
    | .ok normalized2 =>
      match normalizeDataset numberToString random3 parks "park" with
      | .error e => .error e
      | .ok normalized3 =>
        .ok (removeInvalid (normalized1 ++ normalized2 ++ normalized3))

/-- A stand-in for the text of a number on the examples. -/
def showNumber : JsNumber → String
  | .nan => "NaN"
  | .posInf => "Infinity"
  | .negInf => "-Infinity"
  | .fin q => toString q.num ++ "/" ++ toString q.den

/-- The first non-empty value of an ordered list of optional texts, or the fallback text
when there is none: the resolution of a text field in the words of the specification. -/
def firstNonEmpty : List (Option String) → String → String
  | [], fallback => fallback
  | none :: rest, fallback => firstNonEmpty rest fallback
  | some s :: rest, fallback => if s ≠ "" then s else firstNonEmpty rest fallback

/-- The double nearest to 40.7, the number the text "40.7" is parsed to. -/
def number40_7 : ℚ := 5728015776061850 / 2 ^ 47

/-- The double nearest to -74.006, the number the text "-74.006" is parsed to. -/
def numberMinus74_006 : ℚ := -(5207709281612202 / 2 ^ 46)

/-- A raw record with the coordinates of the examples and nothing else. -/
def rawPlain : RawBathroom := { latitude := .str "40.7", longitude := .str "-74.006" }

/-- A raw record of the parks dataset, with a site name, hours and an identifier. -/
def rawPark : RawBathroom :=
  { latitude := .str "40.7", longitude := .str "-74.006", objectid := .str "17",
    name := some "", site_name := some "Bryant Park", hours := .str "8am-4pm" }

/-- A raw record with valid coordinates whose hours are the number 24. -/
def rawNumericHours : RawBathroom :=
  { latitude := .str "40.7", longitude := .str "-74.006",
    hours_of_operation := .num (.fin 24) }

/-- A raw record without usable coordinates. -/
def rawNowhere : RawBathroom :=
  { latitude := .num (.fin 0), longitude := .num (.fin 0), name := some "Nowhere" }

/-- What `normalizeBathroom` returns when it returns: `null`, or the record. -/
def returnedValue (numberToString : JsNumber → String) (random : ℚ) (raw : RawBathroom)
    (type : String) : Option Bathroom :=
  match normalizeBathroom numberToString random raw type with
  | .ok v => v
  | .error _ => none

/-- The entries of a batch that are not `null`, as the records the rest of the app
handles. -/
def records (normalized : List (Option Bathroom)) : List Bathroom :=
  normalized.filterMap id

/-- The records of one normalized dataset, as the rest of the app handles them; none when
the normalization threw. -/
def datasetRecords (numberToString : JsNumber → String) (random : Nat → ℚ)
    (dataset : List RawBathroom) (type : String) : List Bathroom :=
  match normalizeDataset numberToString random dataset type with
  | .ok normalized => records (removeInvalid normalized)
  | .error _ => []

/-- A record of the given type and distance, open and accessible. -/
def mkTyped (type : String) (distance : Option ℚ) : Bathroom :=
  { id := .str "1", name := "Public Restroom", latitude := .fin (407 / 10),
    longitude := .fin (-74),
    address := "Address not available", hours := "Hours vary",
    isAccessible := true, isOpen := true, rating := 4, type := type,
    distance := distance }

/-- A record with the given flags and distance, the other fields fixed. -/
def mkBathroom (id : String) (isOpen isAccessible : Bool) (distance : Option ℚ) :
    Bathroom :=
  { id := .str id, name := "Public Restroom", latitude := .fin (407 / 10),
    longitude := .fin (-74),
    address := "Address not available", hours := "Hours vary",
    isAccessible := isAccessible, isOpen := isOpen, rating := 4, type := "public",
    distance := distance }

/-- The reference point used in the examples (the centre of New York City). -/
def nyc : Location := { lat := 407128 / 10000, lng := -74006 / 1000 }

end BathroomFinder

namespace BathroomFinder

/-! ## The sort model: permutation, order and stability -/

/-- Sorting keeps every element, with its multiplicity. -/
theorem jsSort_perm {α : Type} (compareFn : α → α → ℚ) (l : List α) :
    (jsSort compareFn l).Perm l :=
  List.perm_insertionSort _ l

/-- With a comparator whose sign is a total and transitive order, the result of the sort
is ordered by it. -/
theorem jsSort_pairwise {α : Type} (compareFn : α → α → ℚ)
    (htotal : ∀ a b, compareFn a b ≤ 0 ∨ compareFn b a ≤ 0)
    (htrans : ∀ a b c, compareFn a b ≤ 0 → compareFn b c ≤ 0 → compareFn a c ≤ 0)
    (l : List α) : (jsSort compareFn l).Pairwise (fun a b => compareFn a b ≤ 0) := by
  have h1 : IsTotal α (fun a b => compareFn a b ≤ 0) := ⟨htotal⟩
  have h2 : IsTrans α (fun a b => compareFn a b ≤ 0) := ⟨htrans⟩
  exact List.sorted_insertionSort (fun a b => compareFn a b ≤ 0) l

/-- Inserting `a` into a list changes the sub-list selected by `p` only by `a` itself, put
in front, when `a` is not after any selected element. -/
theorem filter_orderedInsert {α : Type} (r : α → α → Prop) [DecidableRel r]
    (p : α → Bool) (a : α) (l : List α)
    (h : p a = true → ∀ b ∈ l, p b = true → r a b) :
    (l.orderedInsert r a).filter p = (if p a then a :: l.filter p else l.filter p) := by
  induction l with
  | nil => simp [List.filter_cons]
  | cons b l ih =>
    have ih1 := ih (fun ha c hc hpc => h ha c (List.mem_cons_of_mem _ hc) hpc)
    by_cases hab : r a b
    · rw [List.orderedInsert, if_pos hab, List.filter_cons]
    · rw [List.orderedInsert, if_neg hab]
      by_cases hpa : p a = true
      · have hpb : p b = false := by
          by_contra hb
          exact hab (h hpa b (List.mem_cons_self _ _) (by simpa using hb))
        rw [List.filter_cons, ih1]
        simp [hpa, hpb, List.filter_cons]
      · rw [List.filter_cons, ih1]
        simp [hpa, List.filter_cons]

/-- Stability of the sort: the elements selected by a predicate whose members the
comparator does not separate come out in their input order. -/
theorem jsSort_filter {α : Type} (compareFn : α → α → ℚ) (p : α → Bool)
    (h : ∀ a b, p a = true → p b = true → compareFn a b ≤ 0) (l : List α) :
    (jsSort compareFn l).filter p = l.filter p := by
  induction l with
  | nil => simp [jsSort]
  | cons a l ih =>
    have hmem : p a = true → ∀ b ∈ List.insertionSort (fun a b => compareFn a b ≤ 0) l,
        p b = true → compareFn a b ≤ 0 := fun ha b _ hb => h a b ha hb
    have step := filter_orderedInsert (fun a b => compareFn a b ≤ 0) p a
      (List.insertionSort (fun a b => compareFn a b ≤ 0) l) hmem
    unfold jsSort at ih ⊢
    rw [List.insertionSort, step, ih, List.filter_cons]

/-! ## The comparator of `urgentSort` -/

/-- The sign of the comparator, spelled out: accessible before non-accessible, then the
smaller defaulted distance. -/
theorem urgentCompare_le_iff (a b : Bathroom) :
    urgentCompare a b ≤ 0 ↔
      (a.isAccessible = true ∧ b.isAccessible = false) ∨
      (a.isAccessible = b.isAccessible ∧ orZero a.distance ≤ orZero b.distance) := by
  unfold urgentCompare
  cases ha : a.isAccessible <;> cases hb : b.isAccessible <;> simp

theorem urgentCompare_total (a b : Bathroom) :
    urgentCompare a b ≤ 0 ∨ urgentCompare b a ≤ 0 := by
  rw [urgentCompare_le_iff, urgentCompare_le_iff]
  cases ha : a.isAccessible <;> cases hb : b.isAccessible <;> simp
  all_goals exact le_total _ _

theorem urgentCompare_trans (a b c : Bathroom) (hab : urgentCompare a b ≤ 0)
    (hbc : urgentCompare b c ≤ 0) : urgentCompare a c ≤ 0 := by
  rw [urgentCompare_le_iff] at hab hbc ⊢
  cases ha : a.isAccessible <;> cases hb : b.isAccessible <;> cases hc : c.isAccessible <;>
    simp [ha, hb, hc] at hab hbc ⊢
  all_goals exact le_trans hab hbc

/-- With a reference point, `urgentSort` is the sort of the open records. -/
theorem urgentSort_some (l : List Bathroom) (ref : Location) :
    urgentSort l (some ref) = jsSort urgentCompare (l.filter (fun b => b.isOpen)) := by
  cases l with
  | nil => simp [urgentSort, jsSort]
  | cons a l => simp [urgentSort]

/-! ## Urgent ranking -/

/-- C1: with a reference point, the result of `urgentSort` is a rearrangement of the open
input records: every open record occurs as often as in the input, and no closed record
occurs.  On the two records of the example (a closed one at 0.1 and an open,
non-accessible one at 5) only the second is returned. -/
theorem urgentSort_keeps_exactly_open (l : List Bathroom) (ref : Location) :
    (urgentSort l (some ref)).Perm (l.filter (fun b => b.isOpen)) ∧
    (∀ b, b.isOpen = true → (urgentSort l (some ref)).count b = l.count b) ∧
    (∀ b ∈ urgentSort l (some ref), b.isOpen = true) ∧
    urgentSort [mkBathroom "1" false false (some (1 / 10)),
        mkBathroom "2" true false (some 5)] (some ref)
      = [mkBathroom "2" true false (some 5)] := by
  have hperm : (urgentSort l (some ref)).Perm (l.filter (fun b => b.isOpen)) := by
    rw [urgentSort_some]
    exact jsSort_perm _ _
  refine ⟨hperm, ?_, ?_, ?_⟩
  · intro b hb
    rw [hperm.count_eq, List.count_filter]
    simpa using hb
  · intro b hb
    have := hperm.mem_iff.mp hb
    simpa using (List.mem_filter.mp this).2
  · simp [urgentSort, jsSort, mkBathroom]

/-- C2: with a reference point, the result of `urgentSort` lists every accessible record
before every non-accessible one, and inside each accessibility group the distances, an
absent one counted as 0, never decrease.  In particular two open records at the same
distance, one accessible and one not, come out with the accessible one first, whatever
their input order. -/
theorem urgentSort_accessible_then_distance (l : List Bathroom) (ref : Location) :
    (urgentSort l (some ref)).Pairwise (fun a b =>
      (b.isAccessible = true → a.isAccessible = true) ∧
      (a.isAccessible = b.isAccessible → orZero a.distance ≤ orZero b.distance)) ∧
    (∀ a b : Bathroom, a.isOpen = true → b.isOpen = true → a.isAccessible = true →
      b.isAccessible = false → a.distance = b.distance →
      urgentSort [a, b] (some ref) = [a, b] ∧ urgentSort [b, a] (some ref) = [a, b]) := by
  constructor
  · rw [urgentSort_some]
    refine (jsSort_pairwise urgentCompare urgentCompare_total urgentCompare_trans _).imp ?_
    intro a b hab
    rw [urgentCompare_le_iff] at hab
    rcases hab with ⟨ha, hb⟩ | ⟨hacc, hd⟩
    · simp [ha, hb]
    · exact ⟨fun hb => by rw [hacc]; exact hb, fun _ => hd⟩
  · intro a b ha hb hacc hnacc _
    simp [urgentSort, jsSort, urgentCompare, ha, hb, hacc, hnacc]

/-- Two open records at distance 2, the non-accessible one first in the input: the
accessible one comes out first. -/
theorem urgentSort_accessible_then_distance_witness :
    urgentSort [mkBathroom "n" true false (some 2), mkBathroom "a" true true (some 2)]
        (some nyc)
      = [mkBathroom "a" true true (some 2), mkBathroom "n" true false (some 2)] :=
  ((urgentSort_accessible_then_distance [] nyc).2 (mkBathroom "a" true true (some 2))
    (mkBathroom "n" true false (some 2)) rfl rfl rfl rfl rfl).2

/-- C3: `urgentSort` is stable.  For each accessibility flag and each defaulted distance,
the open records carrying that flag and that distance appear in the result in exactly
the order they have in the input; e.g. two accessible records at distance 2 keep their
input order, whichever it is, behind a nearer one. -/
theorem urgentSort_stable (l : List Bathroom) (ref : Location) (acc : Bool) (d : ℚ) :
    ((urgentSort l (some ref)).filter
        (fun b => b.isAccessible == acc && decide (orZero b.distance = d))
      = (l.filter (fun b => b.isOpen)).filter
        (fun b => b.isAccessible == acc && decide (orZero b.distance = d))) ∧
    urgentSort [mkBathroom "a" true true (some 2), mkBathroom "b" true true (some 2),
        mkBathroom "c" true true (some 1)] (some ref)
      = [mkBathroom "c" true true (some 1), mkBathroom "a" true true (some 2),
        mkBathroom "b" true true (some 2)] ∧
    urgentSort [mkBathroom "b" true true (some 2), mkBathroom "a" true true (some 2),
        mkBathroom "c" true true (some 1)] (some ref)
      = [mkBathroom "c" true true (some 1), mkBathroom "b" true true (some 2),
        mkBathroom "a" true true (some 2)] := by
  refine ⟨?_, ?_, ?_⟩
  · rw [urgentSort_some]
    apply jsSort_filter
    intro a b ha hb
    simp only [Bool.and_eq_true, beq_iff_eq, decide_eq_true_eq] at ha hb
    rw [urgentCompare_le_iff]
    right
    exact ⟨by rw [ha.1, hb.1], by rw [ha.2, hb.2]⟩
  · simp [urgentSort, jsSort, urgentCompare, mkBathroom, orZero, truthyNum]
  · simp [urgentSort, jsSort, urgentCompare, mkBathroom, orZero, truthyNum]

/-- C4: without a reference point, and on an empty list, `urgentSort` returns its input
as it is: closed records stay and the order is untouched. -/
theorem urgentSort_passthrough :
    (∀ l : List Bathroom, urgentSort l none = l) ∧
    (∀ ref : Option Location, urgentSort [] ref = []) ∧
    urgentSort [mkBathroom "1" false false (some 3), mkBathroom "2" true true (some 1)] none
      = [mkBathroom "1" false false (some 3), mkBathroom "2" true true (some 1)] := by
  refine ⟨?_, ?_, ?_⟩
  · intro l
    simp [urgentSort]
  · intro ref
    simp [urgentSort]
  · simp [urgentSort]

/-- C5, as stated, fails: the ranking the code computes is not "Open > Near >
Accessible".  For an open, non-accessible record at distance 1 and an open, accessible
record at distance 5, `urgentSort` puts the farther, accessible record first. -/
theorem urgentSort_accessible_beats_nearer :
    urgentSort [mkBathroom "near" true false (some 1), mkBathroom "far" true true (some 5)]
        (some nyc)
      = [mkBathroom "far" true true (some 5), mkBathroom "near" true false (some 1)] := by
  simp [urgentSort, jsSort, urgentCompare, mkBathroom]

/-- C5, amended: `urgentSort` ranks with priority Open > Accessible > Near.  With a
reference point only open records are returned; no non-accessible record comes before an
accessible one, whatever their distances; and among records of equal accessibility no
record comes before one with a strictly smaller distance, an absent distance counted as
0.  So of two open records the accessible one comes first, and of two open records of
equal accessibility the nearer one comes first, whatever their input order. -/
theorem urgentSort_open_accessible_near (l : List Bathroom) (ref : Location) :
    (∀ b ∈ urgentSort l (some ref), b.isOpen = true) ∧
    (urgentSort l (some ref)).Pairwise (fun a b =>
      ¬ (a.isAccessible = false ∧ b.isAccessible = true) ∧
      (a.isAccessible = b.isAccessible → ¬ orZero b.distance < orZero a.distance)) ∧
    (∀ a b : Bathroom, a.isOpen = true → b.isOpen = true → a.isAccessible = true →
      b.isAccessible = false →
      urgentSort [a, b] (some ref) = [a, b] ∧ urgentSort [b, a] (some ref) = [a, b]) ∧
    (∀ a b : Bathroom, a.isOpen = true → b.isOpen = true →
      a.isAccessible = b.isAccessible → orZero a.distance < orZero b.distance →
      urgentSort [a, b] (some ref) = [a, b] ∧ urgentSort [b, a] (some ref) = [a, b]) := by
  refine ⟨?_, ?_, ?_, ?_⟩
  · intro b hb
    rw [urgentSort_some] at hb
    have hmem := (jsSort_perm urgentCompare _).mem_iff.mp hb
    simpa using (List.mem_filter.mp hmem).2
  · rw [urgentSort_some]
    refine (jsSort_pairwise urgentCompare urgentCompare_total urgentCompare_trans _).imp ?_
    intro a b hab
    rw [urgentCompare_le_iff] at hab
    rcases hab with ⟨ha, hb⟩ | ⟨hacc, hd⟩
    · simp [ha, hb]
    · refine ⟨?_, fun _ => not_lt.mpr hd⟩
      rintro ⟨h1, h2⟩
      rw [hacc, h2] at h1
      cases h1
  · intro a b ha hb hacc hnacc
    simp [urgentSort, jsSort, urgentCompare, ha, hb, hacc, hnacc]
  · intro a b ha hb hacc hlt
    have h1 : urgentCompare a b ≤ 0 :=
      (urgentCompare_le_iff a b).mpr (Or.inr ⟨hacc, le_of_lt hlt⟩)
    have h2 : ¬ urgentCompare b a ≤ 0 := by
      rw [urgentCompare_le_iff]
      rintro (⟨hb1, ha1⟩ | ⟨_, hle⟩)
      · rw [hacc, hb1] at ha1
        cases ha1
      · exact absurd hlt (not_lt.mpr hle)
    simp [urgentSort, jsSort, ha, hb, h1, h2]

/-- An accessible record at distance 5 and a non-accessible one at distance 1: the
accessible one is first.  Two accessible records at distances 5 and 1: the nearer one is
first. -/
theorem urgentSort_open_accessible_near_witness :
    urgentSort [mkBathroom "near" true false (some 1), mkBathroom "far" true true (some 5)]
        (some nyc)
      = [mkBathroom "far" true true (some 5), mkBathroom "near" true false (some 1)] ∧
    urgentSort [mkBathroom "far" true true (some 5), mkBathroom "near" true true (some 1)]
        (some nyc)
      = [mkBathroom "near" true true (some 1), mkBathroom "far" true true (some 5)] :=
  ⟨((urgentSort_open_accessible_near [] nyc).2.2.1 (mkBathroom "far" true true (some 5))
      (mkBathroom "near" true false (some 1)) rfl rfl rfl rfl).2,
    ((urgentSort_open_accessible_near [] nyc).2.2.2 (mkBathroom "near" true true (some 1))
      (mkBathroom "far" true true (some 5)) rfl rfl rfl
      (by simp [mkBathroom, orZero, truthyNum])).2⟩

/-! ## The filter engine -/

/-- The function `applyFilters` runs its four steps one after the other. -/
theorem applyFilters_eq_stages (R : List Bathroom) (cfg : Filters) :
    applyFilters R cfg
      = stageType cfg (stageDistance cfg (stageAccessible cfg (stageOpenNow cfg R))) :=
  rfl

theorem stageOpenNow_eq_filter (cfg : Filters) (l : List Bathroom) :
    stageOpenNow cfg l = l.filter (fun b => !cfg.openNow || b.isOpen) := by
  unfold stageOpenNow
  cases cfg.openNow <;> simp

theorem stageAccessible_eq_filter (cfg : Filters) (l : List Bathroom) :
    stageAccessible cfg l = l.filter (fun b => !cfg.accessibleOnly || b.isAccessible) := by
  unfold stageAccessible
  cases cfg.accessibleOnly <;> simp

theorem stageDistance_eq_filter (cfg : Filters) (l : List Bathroom) :
    stageDistance cfg l = l.filter (fun b =>
      decide (cfg.maxDistance ≤ 0) || b.distance.isNone ||
        (match b.distance with
         | some d => decide (d ≤ cfg.maxDistance)
         | none => false)) := by
  unfold stageDistance
  by_cases h : 0 < cfg.maxDistance
  · have hne : cfg.maxDistance ≠ 0 := ne_of_gt h
    have hle : ¬ cfg.maxDistance ≤ 0 := not_le.mpr h
    simp only [truthyNum, hne, h, gt_iff_lt, hle, ne_eq, not_false_eq_true, decide_True,
      Bool.and_self, if_true, decide_False, Bool.false_or]
    apply List.filter_congr
    intro b _
    cases hd : b.distance with
    | none => simp [truthyOptNum]
    | some x =>
      by_cases hx : x = 0
      · simp [truthyOptNum, truthyNum, hx, le_of_lt h]
      · simp [truthyOptNum, truthyNum, hx]
  · have hle : cfg.maxDistance ≤ 0 := not_lt.mp h
    simp [h, hle]

theorem stageType_eq_filter (cfg : Filters) (l : List Bathroom) :
    stageType cfg l = l.filter (fun b =>
      decide (cfg.type = "") || decide (cfg.type = "all") || decide (b.type = cfg.type)) := by
  unfold stageType truthyStr
  by_cases h1 : cfg.type = ""
  · simp [h1]
  · by_cases h2 : cfg.type = "all"
    · simp [h2]
    · simp [h1, h2]

/-- The function `applyFilters` keeps, in input order, the records that pass the four
guarded tests together. -/
theorem applyFilters_eq_filter (R : List Bathroom) (cfg : Filters) :
    applyFilters R cfg = R.filter (keptByGuards cfg) := by
  rw [applyFilters_eq_stages, stageOpenNow_eq_filter, stageAccessible_eq_filter,
    stageDistance_eq_filter, stageType_eq_filter, List.filter_filter, List.filter_filter,
    List.filter_filter]
  apply List.filter_congr
  intro b _
  unfold keptByGuards
  simp only [Bool.and_comm, Bool.and_left_comm, Bool.and_assoc]

/-- Functions that commute with one another can be applied in any order. -/
theorem foldl_apply_perm {α : Type} {fs gs : List (α → α)} (h : fs.Perm gs) :
    (∀ f ∈ fs, ∀ g ∈ fs, ∀ x, f (g x) = g (f x)) →
    ∀ x, fs.foldl (fun acc f => f acc) x = gs.foldl (fun acc f => f acc) x := by
  induction h with
  | nil => intro _ x; rfl
  | cons f _ ih =>
    intro hc x
    simp only [List.foldl_cons]
    exact ih (fun f1 h1 g1 hg1 => hc f1 (List.mem_cons_of_mem _ h1) g1
      (List.mem_cons_of_mem _ hg1)) (f x)
  | swap f g l =>
    intro hc x
    simp only [List.foldl_cons]
    rw [hc f (by simp) g (by simp) x]
  | trans h1 _ ih1 ih2 =>
    intro hc x
    rw [ih1 hc x]
    exact ih2 (fun f1 hf1 g1 hg1 => hc f1 (h1.mem_iff.mpr hf1) g1 (h1.mem_iff.mpr hg1)) x

/-- Each step of `applyFilters` is a filter by some test. -/
theorem stage_is_filter (cfg : Filters) (f : List Bathroom → List Bathroom)
    (hf : f ∈ [stageOpenNow cfg, stageAccessible cfg, stageDistance cfg, stageType cfg]) :
    ∃ p : Bathroom → Bool, ∀ l, f l = l.filter p := by
  simp only [List.mem_cons, List.mem_singleton, List.not_mem_nil, or_false] at hf
  rcases hf with rfl | rfl | rfl | rfl
  · exact ⟨_, stageOpenNow_eq_filter cfg⟩
  · exact ⟨_, stageAccessible_eq_filter cfg⟩
  · exact ⟨_, stageDistance_eq_filter cfg⟩
  · exact ⟨_, stageType_eq_filter cfg⟩

/-- The guarded keep-condition, test by test. -/
theorem keptByGuards_iff (cfg : Filters) (b : Bathroom) :
    keptByGuards cfg b = true ↔
      (cfg.openNow = true → b.isOpen = true) ∧
      (cfg.accessibleOnly = true → b.isAccessible = true) ∧
      (0 < cfg.maxDistance → ∀ d, b.distance = some d → d ≤ cfg.maxDistance) ∧
      (cfg.type ≠ "" → cfg.type ≠ "all" → b.type = cfg.type) := by
  unfold keptByGuards
  cases hd : b.distance with
  | none =>
    cases cfg.openNow <;> cases cfg.accessibleOnly <;> simp <;> tauto
  | some x =>
    cases cfg.openNow <;> cases cfg.accessibleOnly <;> simp [← not_lt] <;> tauto

theorem mergePositive_distance (m1 m2 : ℚ) (P : ℚ → Prop) :
    (0 < (if m1 ≤ 0 then m2 else if m2 ≤ 0 then m1 else min m1 m2) →
        ∀ d, P d → d ≤ (if m1 ≤ 0 then m2 else if m2 ≤ 0 then m1 else min m1 m2)) ↔
      (0 < m1 → ∀ d, P d → d ≤ m1) ∧ (0 < m2 → ∀ d, P d → d ≤ m2) := by
  by_cases h1 : m1 ≤ 0
  · simp only [h1, if_true]
    constructor
    · intro h
      exact ⟨fun h0 => absurd h0 (not_lt.mpr h1), h⟩
    · intro h
      exact h.2
  · by_cases h2 : m2 ≤ 0
    · simp only [h1, h2, if_true, if_false]
      constructor
      · intro h
        exact ⟨h, fun h0 => absurd h0 (not_lt.mpr h2)⟩
      · intro h
        exact h.1
    · simp only [h1, h2, if_false]
      have p1 : 0 < m1 := not_le.mp h1
      have p2 : 0 < m2 := not_le.mp h2
      constructor
      · intro h
        have hm := h (lt_min p1 p2)
        exact ⟨fun _ d hd => le_trans (hm d hd) (min_le_left _ _),
          fun _ d hd => le_trans (hm d hd) (min_le_right _ _)⟩
      · intro h _ d hd
        exact le_min (h.1 p1 d hd) (h.2 p2 d hd)

theorem mergePositive_type (t1 t2 bt : String)
    (h : ¬ (t1 ≠ "all" ∧ t2 ≠ "all" ∧ t1 ≠ t2)) :
    ((if t1 ≠ "all" then t1 else t2) ≠ "" → (if t1 ≠ "all" then t1 else t2) ≠ "all" →
        bt = (if t1 ≠ "all" then t1 else t2)) ↔
      (t1 ≠ "" → t1 ≠ "all" → bt = t1) ∧ (t2 ≠ "" → t2 ≠ "all" → bt = t2) := by
  by_cases h1 : t1 = "all"
  · subst h1
    simp
  · by_cases h2 : t2 = "all"
    · subst h2
      simp [h1]
    · have h12 : t1 = t2 := by
        by_contra hne
        exact h ⟨h1, h2, hne⟩
      subst h12
      simp [h1]

theorem mergePositive_flag (f1 f2 : Bool) (P : Prop) :
    ((f1 || f2) = true → P) ↔ (f1 = true → P) ∧ (f2 = true → P) := by
  cases f1 <;> cases f2 <;> simp

/-- Under the guards of the code, the merged config keeps a record exactly when both
configs keep it. -/
theorem keptByGuards_mergePositive (cfg1 cfg2 : Filters) (b : Bathroom)
    (h : ¬ conflicting cfg1 cfg2) :
    keptByGuards (mergePositive cfg1 cfg2) b
      = (keptByGuards cfg1 b && keptByGuards cfg2 b) := by
  rw [Bool.eq_iff_iff, Bool.and_eq_true, keptByGuards_iff, keptByGuards_iff,
    keptByGuards_iff]
  have hd := mergePositive_distance cfg1.maxDistance cfg2.maxDistance
    (fun d => b.distance = some d)
  have ht := mergePositive_type cfg1.type cfg2.type b.type h
  simp only [mergePositive]
  rw [hd, ht, mergePositive_flag, mergePositive_flag]
  constructor
  · rintro ⟨⟨o1, o2⟩, ⟨a1, a2⟩, ⟨d1, d2⟩, t1, t2⟩
    exact ⟨⟨o1, a1, d1, t1⟩, o2, a2, d2, t2⟩
  · rintro ⟨⟨o1, a1, d1, t1⟩, o2, a2, d2, t2⟩
    exact ⟨⟨o1, o2⟩, ⟨a1, a2⟩, ⟨d1, d2⟩, t1, t2⟩

/-- On a config whose limit is not negative and whose type is not empty, the stated
keep-condition and the guarded one agree. -/
theorem keptAsStated_eq_keptByGuards (cfg : Filters) (b : Bathroom)
    (hm : 0 ≤ cfg.maxDistance) (ht : cfg.type ≠ "") :
    keptAsStated cfg b = keptByGuards cfg b := by
  have hz : cfg.maxDistance ≤ 0 ↔ cfg.maxDistance = 0 :=
    ⟨fun h => le_antisymm h hm, fun h => le_of_eq h⟩
  unfold keptAsStated keptByGuards
  simp only [hz, ht, decide_False, Bool.false_or]

/-- On such a config `applyFilters` is the filter by the stated keep-condition. -/
theorem applyFilters_as_stated_of_nonneg (R : List Bathroom) (cfg : Filters)
    (hm : 0 ≤ cfg.maxDistance) (ht : cfg.type ≠ "") :
    applyFilters R cfg = R.filter (keptAsStated cfg) := by
  rw [applyFilters_eq_filter]
  apply List.filter_congr
  intro b _
  exact (keptAsStated_eq_keptByGuards cfg b hm ht).symm

/-- On limits that are not negative the two merges agree. -/
theorem mergeAsStated_eq_mergePositive (cfg1 cfg2 : Filters)
    (h1 : 0 ≤ cfg1.maxDistance) (h2 : 0 ≤ cfg2.maxDistance) :
    mergeAsStated cfg1 cfg2 = mergePositive cfg1 cfg2 := by
  have z1 : cfg1.maxDistance ≤ 0 ↔ cfg1.maxDistance = 0 :=
    ⟨fun h => le_antisymm h h1, fun h => le_of_eq h⟩
  have z2 : cfg2.maxDistance ≤ 0 ↔ cfg2.maxDistance = 0 :=
    ⟨fun h => le_antisymm h h2, fun h => le_of_eq h⟩
  unfold mergeAsStated mergePositive
  simp only [z1, z2]

/-- C6, as stated, fails: with `maxDistance` set to -1 the code runs no distance filter
and keeps a record at distance 5, which the stated condition rejects; and with an empty
`type` the code runs no type filter and keeps a `"public"` record, which the stated
condition rejects as well. -/
theorem applyFilters_not_as_stated :
    applyFilters [mkTyped "public" (some 5)] ⟨false, false, -1, "all"⟩
        = [mkTyped "public" (some 5)] ∧
      [mkTyped "public" (some 5)].filter (keptAsStated ⟨false, false, -1, "all"⟩) = [] ∧
    applyFilters [mkTyped "public" (some 5)] ⟨false, false, 0, ""⟩
        = [mkTyped "public" (some 5)] ∧
      [mkTyped "public" (some 5)].filter (keptAsStated ⟨false, false, 0, ""⟩) = [] := by
  refine ⟨?_, ?_, ?_, ?_⟩
  · simp [applyFilters, truthyNum]
  · simp [keptAsStated, mkTyped]
    norm_num
  · simp [applyFilters, truthyNum, truthyStr]
  · simp [keptAsStated, mkTyped]

/-- C6, amended: `applyFilters` returns, in input order, exactly the records that pass
all four tests, where the distance test is off for every `maxDistance` not greater than 0
and the type test is off for an empty type as well as for `"all"`.  The four steps can be
run in any order with the same result, and a record without a distance always passes
the distance step. -/
theorem applyFilters_is_guarded_and (R : List Bathroom) (cfg : Filters) :
    applyFilters R cfg = R.filter (keptByGuards cfg) ∧
    (∀ b, keptByGuards cfg b = true ↔
      (cfg.openNow = false ∨ b.isOpen = true) ∧
      (cfg.accessibleOnly = false ∨ b.isAccessible = true) ∧
      (cfg.maxDistance ≤ 0 ∨ b.distance = none ∨
        ∃ d, b.distance = some d ∧ d ≤ cfg.maxDistance) ∧
      (cfg.type = "" ∨ cfg.type = "all" ∨ b.type = cfg.type)) ∧
    (∀ stages : List (List Bathroom → List Bathroom),
      stages.Perm
        [stageOpenNow cfg, stageAccessible cfg, stageDistance cfg, stageType cfg] →
      stages.foldl (fun acc f => f acc) R = applyFilters R cfg) ∧
    (∀ b ∈ R, b.distance = none → b ∈ stageDistance cfg R) := by
  refine ⟨applyFilters_eq_filter R cfg, ?_, ?_, ?_⟩
  · intro b
    unfold keptByGuards
    cases hd : b.distance with
    | none => cases cfg.openNow <;> cases cfg.accessibleOnly <;> simp [or_assoc, and_assoc]
    | some x => cases cfg.openNow <;> cases cfg.accessibleOnly <;> simp [or_assoc, and_assoc]
  · intro stages hperm
    have hcomm : ∀ f ∈ stages, ∀ g ∈ stages, ∀ x, f (g x) = g (f x) := by
      intro f hf g hg x
      obtain ⟨p, hp⟩ := stage_is_filter cfg f (hperm.mem_iff.mp hf)
      obtain ⟨q, hq⟩ := stage_is_filter cfg g (hperm.mem_iff.mp hg)
      rw [hp, hq, hq, hp, List.filter_filter, List.filter_filter]
      apply List.filter_congr
      intro b _
      exact Bool.and_comm _ _
    rw [foldl_apply_perm hperm hcomm R, applyFilters_eq_stages]
    rfl
  · intro b hb hd
    rw [stageDistance_eq_filter]
    exact List.mem_filter.mpr ⟨hb, by simp [hd]⟩

/-- The four steps of `applyFilters` run in the reverse order, on a list that each step
shortens, give what `applyFilters` gives. -/
theorem applyFilters_is_guarded_and_witness :
    [stageType ⟨true, true, 2, "park"⟩, stageDistance ⟨true, true, 2, "park"⟩,
      stageAccessible ⟨true, true, 2, "park"⟩, stageOpenNow ⟨true, true, 2, "park"⟩].foldl
        (fun acc f => f acc)
        [mkTyped "park" (some 1), mkTyped "public" (some 1), mkTyped "park" (some 3),
          mkBathroom "c" false true none, mkTyped "park" none]
      = applyFilters
        [mkTyped "park" (some 1), mkTyped "public" (some 1), mkTyped "park" (some 3),
          mkBathroom "c" false true none, mkTyped "park" none]
        ⟨true, true, 2, "park"⟩ :=
  (applyFilters_is_guarded_and _ ⟨true, true, 2, "park"⟩).2.2.1 _
    (List.reverse_perm
      [stageOpenNow ⟨true, true, 2, "park"⟩, stageAccessible ⟨true, true, 2, "park"⟩,
        stageDistance ⟨true, true, 2, "park"⟩, stageType ⟨true, true, 2, "park"⟩])

/-- C7, as stated, fails: merging a limit of -1 with a limit of 5 by taking the smaller
non-zero one gives -1, which filters nothing, while the two passes one after the other
drop a record at distance 7. -/
theorem applyFilters_merge_not_as_stated :
    ¬ conflicting ⟨false, false, -1, "all"⟩ ⟨false, false, 5, "all"⟩ ∧
    applyFilters (applyFilters [mkTyped "public" (some 7)] ⟨false, false, -1, "all"⟩)
        ⟨false, false, 5, "all"⟩ = [] ∧
    applyFilters [mkTyped "public" (some 7)]
        (mergeAsStated ⟨false, false, -1, "all"⟩ ⟨false, false, 5, "all"⟩)
      = [mkTyped "public" (some 7)] := by
  refine ⟨?_, ?_, ?_⟩
  · simp [conflicting]
  · simp [applyFilters, truthyNum, truthyOptNum, mkTyped]
    norm_num
  · simp [applyFilters, mergeAsStated, truthyNum]

/-- C7, amended: for configs that do not conflict, filtering by the first and then by
the second is filtering once by their merge, where the merged limit is the smaller of
the limits that are greater than 0; and filtering twice by one config is filtering once
by it. -/
theorem applyFilters_compose (R : List Bathroom) (cfg1 cfg2 : Filters)
    (h : ¬ conflicting cfg1 cfg2) :
    applyFilters (applyFilters R cfg1) cfg2 = applyFilters R (mergePositive cfg1 cfg2) ∧
    applyFilters (applyFilters R cfg1) cfg1 = applyFilters R cfg1 := by
  constructor
  · rw [applyFilters_eq_filter, applyFilters_eq_filter, applyFilters_eq_filter,
      List.filter_filter]
    apply List.filter_congr
    intro b _
    rw [keptByGuards_mergePositive cfg1 cfg2 b h, Bool.and_comm]
  · rw [applyFilters_eq_filter, applyFilters_eq_filter, List.filter_filter]
    apply List.filter_congr
    intro b _
    exact Bool.and_self _

/-- An accessibility-only config followed by a park-only config with a limit of 2 is
their merge. -/
theorem applyFilters_compose_witness :
    ¬ conflicting ⟨false, true, 0, "all"⟩ ⟨true, false, 2, "park"⟩ ∧
    applyFilters
        (applyFilters [mkTyped "park" (some 1), mkTyped "public" (some 1),
          mkTyped "park" (some 3), mkBathroom "c" true false (some 1)]
          ⟨false, true, 0, "all"⟩)
        ⟨true, false, 2, "park"⟩
      = applyFilters [mkTyped "park" (some 1), mkTyped "public" (some 1),
          mkTyped "park" (some 3), mkBathroom "c" true false (some 1)]
        (mergePositive ⟨false, true, 0, "all"⟩ ⟨true, false, 2, "park"⟩) :=
  ⟨by simp [conflicting],
    (applyFilters_compose _ ⟨false, true, 0, "all"⟩ ⟨true, false, 2, "park"⟩
      (by simp [conflicting])).1⟩

/-! ## The hours evaluator -/

/-- C8: `isCurrentlyOpen` is false on a missing or empty text and true on every other
text, whether or not it mentions "24": the result is true exactly when the text is
present and non-empty. -/
theorem isCurrentlyOpen_iff_nonempty :
    (∀ hours : Option String,
      isCurrentlyOpen hours = true ↔ ∃ s, hours = some s ∧ s ≠ "") ∧
    isCurrentlyOpen none = false ∧
    isCurrentlyOpen (some "") = false ∧
    isCurrentlyOpen (some "24/7") = true ∧
    isCurrentlyOpen (some "9am-5pm") = true ∧
    includes (toLowerCase "24/7") "24" = true ∧
    includes (toLowerCase "9am-5pm") "24" = false := by
  refine ⟨?_, rfl, ?_, ?_, ?_, by decide, by decide⟩
  · intro hours
    cases hours with
    | none => simp [isCurrentlyOpen]
    | some s => simp [isCurrentlyOpen, truthyStr]
  · simp [isCurrentlyOpen, truthyStr]
  · simp [isCurrentlyOpen, truthyStr]
  · simp [isCurrentlyOpen, truthyStr]

/-! ## The distance annotator -/

/-- C12: without a reference point `addDistanceToBathrooms` returns the list it was
given: the same records in the same order, none of them with a new distance. -/
theorem addDistanceToBathrooms_absent
    (calculateDistance : ℚ → ℚ → JsNumber → JsNumber → Option ℚ) :
    (∀ R : List Bathroom, addDistanceToBathrooms calculateDistance R none = R) ∧
    addDistanceToBathrooms calculateDistance
        [mkAt "1" 41 (-74), mkBathroom "2" false true (some 3)] none
      = [mkAt "1" 41 (-74), mkBathroom "2" false true (some 3)] := by
  constructor
  · intro R
    rfl
  · rfl

/-- C13: with a reference point `addDistanceToBathrooms` returns a list of the same
length in which the record at each position is the input record at that position with
`distance` set to `calculateDistance(ref.lat, ref.lng, latitude, longitude)` and every
other field as it was. -/
theorem addDistanceToBathrooms_present
    (calculateDistance : ℚ → ℚ → JsNumber → JsNumber → Option ℚ)
    (R : List Bathroom) (ref : Location) :
    (addDistanceToBathrooms calculateDistance R (some ref)).length = R.length ∧
    ∀ (i : Nat) (b : Bathroom), R[i]? = some b →
      ∃ b2, (addDistanceToBathrooms calculateDistance R (some ref))[i]? = some b2 ∧
        b2.distance = calculateDistance ref.lat ref.lng b.latitude b.longitude ∧
        b2.id = b.id ∧ b2.name = b.name ∧ b2.latitude = b.latitude ∧
        b2.longitude = b.longitude ∧ b2.address = b.address ∧ b2.hours = b.hours ∧
        b2.isAccessible = b.isAccessible ∧ b2.isOpen = b.isOpen ∧
        b2.rating = b.rating ∧ b2.type = b.type := by
  constructor
  · simp [addDistanceToBathrooms]
  · intro i b hb
    refine ⟨{ b with
      distance := calculateDistance ref.lat ref.lng b.latitude b.longitude }, ?_, ?_⟩
    · simp [addDistanceToBathrooms, List.getElem?_map, hb]
    · simp

/-- The second of two records, annotated with the stand-in distance: 5 from the
reference point, the other fields untouched. -/
theorem addDistanceToBathrooms_present_witness :
    ∃ b2, (addDistanceToBathrooms gridDistance
          [mkAt "here" (407128 / 10000) (-74006 / 1000),
            mkAt "far" (457128 / 10000) (-74006 / 1000)] (some nyc))[1]? = some b2 ∧
      b2.distance = gridDistance nyc.lat nyc.lng
        (mkAt "far" (457128 / 10000) (-74006 / 1000)).latitude
        (mkAt "far" (457128 / 10000) (-74006 / 1000)).longitude ∧
      b2.id = (mkAt "far" (457128 / 10000) (-74006 / 1000)).id ∧
      b2.name = (mkAt "far" (457128 / 10000) (-74006 / 1000)).name ∧
      b2.latitude = (mkAt "far" (457128 / 10000) (-74006 / 1000)).latitude ∧
      b2.longitude = (mkAt "far" (457128 / 10000) (-74006 / 1000)).longitude ∧
      b2.address = (mkAt "far" (457128 / 10000) (-74006 / 1000)).address ∧
      b2.hours = (mkAt "far" (457128 / 10000) (-74006 / 1000)).hours ∧
      b2.isAccessible = (mkAt "far" (457128 / 10000) (-74006 / 1000)).isAccessible ∧
      b2.isOpen = (mkAt "far" (457128 / 10000) (-74006 / 1000)).isOpen ∧
      b2.rating = (mkAt "far" (457128 / 10000) (-74006 / 1000)).rating ∧
      b2.type = (mkAt "far" (457128 / 10000) (-74006 / 1000)).type :=
  (addDistanceToBathrooms_present gridDistance
    [mkAt "here" (407128 / 10000) (-74006 / 1000),
      mkAt "far" (457128 / 10000) (-74006 / 1000)] nyc).2 1
    (mkAt "far" (457128 / 10000) (-74006 / 1000)) rfl

/-! ## The distance order of the regular mode -/

/-- The key `distance || Infinity` is a finite number or `Infinity`. -/
theorem orInfinity_cases (d : Option ℚ) :
    orInfinity d = .posInf ∨ ∃ x, orInfinity d = .fin x ∧ d = some x ∧ x ≠ 0 := by
  cases d with
  | none => exact Or.inl rfl
  | some x =>
    by_cases hx : x = 0
    · left
      simp [orInfinity, truthyNum, hx]
    · right
      exact ⟨x, by simp [orInfinity, truthyNum, hx], rfl, hx⟩

/-- The sign of the comparator of `App`, spelled out on the keys. -/
theorem distanceCompare_le_iff (a b : Bathroom) :
    distanceCompare a b ≤ 0 ↔
      orInfinity b.distance = .posInf ∨
      ∃ x y, orInfinity a.distance = .fin x ∧ orInfinity b.distance = .fin y ∧ x ≤ y := by
  unfold distanceCompare
  rcases orInfinity_cases a.distance with ha | ⟨x, ha, _, _⟩ <;>
    rcases orInfinity_cases b.distance with hb | ⟨y, hb, _, _⟩ <;>
    simp [ha, hb, JsNumber.sub, JsNumber.sortValue]

theorem distanceCompare_total (a b : Bathroom) :
    distanceCompare a b ≤ 0 ∨ distanceCompare b a ≤ 0 := by
  rw [distanceCompare_le_iff, distanceCompare_le_iff]
  rcases orInfinity_cases a.distance with ha | ⟨x, ha, _, _⟩ <;>
    rcases orInfinity_cases b.distance with hb | ⟨y, hb, _, _⟩ <;>
    simp [ha, hb]
  exact le_total x y

theorem distanceCompare_trans (a b c : Bathroom) (hab : distanceCompare a b ≤ 0)
    (hbc : distanceCompare b c ≤ 0) : distanceCompare a c ≤ 0 := by
  rw [distanceCompare_le_iff] at hab hbc ⊢
  rcases orInfinity_cases a.distance with ha | ⟨x, ha, _, _⟩ <;>
    rcases orInfinity_cases b.distance with hb | ⟨y, hb, _, _⟩ <;>
    rcases orInfinity_cases c.distance with hc | ⟨z, hc, _, _⟩ <;>
    simp [ha, hb, hc] at hab hbc ⊢
  exact le_trans hab hbc

/-- In the regular mode with a location the displayed list is ordered by the key
`distance || Infinity`: the records with a distance other than 0 come first, by
increasing distance, and the records whose distance is 0 or absent come last. -/
theorem displayedBathrooms_ordered_by_key
    (calculateDistance : ℚ → ℚ → JsNumber → JsNumber → Option ℚ)
    (R : List Bathroom) (loc : Location) (filters : Filters) :
    (displayedBathrooms calculateDistance R (some loc) false filters).Pairwise
      (fun a b => orInfinity b.distance = .posInf ∨
        ∃ x y, a.distance = some x ∧ b.distance = some y ∧ x ≠ 0 ∧ y ≠ 0 ∧ x ≤ y) := by
  have h := jsSort_pairwise distanceCompare distanceCompare_total distanceCompare_trans
    (applyFilters (addDistanceToBathrooms calculateDistance R (some loc)) filters)
  simp only [displayedBathrooms, Option.isSome_some, if_true, Bool.false_eq_true, if_false]
  refine h.imp ?_
  intro a b hab
  rw [distanceCompare_le_iff] at hab
  rcases hab with hb | ⟨x, y, hx, hy, hxy⟩
  · exact Or.inl hb
  · right
    rcases orInfinity_cases a.distance with ha | ⟨x2, ha, ha2, ha3⟩
    · rw [ha] at hx
      cases hx
    · rcases orInfinity_cases b.distance with hb | ⟨y2, hb, hb2, hb3⟩
      · rw [hb] at hy
        cases hy
      · rw [ha] at hx
        rw [hb] at hy
        cases hx
        cases hy
        exact ⟨_, _, ha2, hb2, ha3, hb3, hxy⟩

/-- C20: the regular mode does not sort by distance when a record lies at the user's
location.  Whatever `calculateDistance` is, if it gives 0 for the first record and a
positive distance for the second, the displayed list has the second record first and the
record at distance 0 last. -/
theorem displayedBathrooms_zero_distance_last
    (calculateDistance : ℚ → ℚ → JsNumber → JsNumber → Option ℚ)
    (loc : Location) (here far : Bathroom) (d : ℚ) (hd : 0 < d)
    (h0 : calculateDistance loc.lat loc.lng here.latitude here.longitude = some 0)
    (h1 : calculateDistance loc.lat loc.lng far.latitude far.longitude = some d) :
    displayedBathrooms calculateDistance [here, far] (some loc) false
        ⟨false, false, 0, "all"⟩
      = [{ far with distance := some d }, { here with distance := some 0 }] := by
  have hne : d ≠ 0 := ne_of_gt hd
  simp [displayedBathrooms, addDistanceToBathrooms, applyFilters, jsSort, distanceCompare,
    h0, h1, truthyNum, orInfinity, JsNumber.sub, JsNumber.sortValue, hne]

/-- A record at the reference point and one five degrees north of it: the far one is
displayed first. -/
theorem displayedBathrooms_zero_distance_last_witness :
    displayedBathrooms gridDistance
        [mkAt "here" (407128 / 10000) (-74006 / 1000),
          mkAt "far" (457128 / 10000) (-74006 / 1000)] (some nyc) false
        ⟨false, false, 0, "all"⟩
      = [{ mkAt "far" (457128 / 10000) (-74006 / 1000) with distance := some 5 },
        { mkAt "here" (407128 / 10000) (-74006 / 1000) with distance := some 0 }] :=
  displayedBathrooms_zero_distance_last gridDistance nyc
    (mkAt "here" (407128 / 10000) (-74006 / 1000))
    (mkAt "far" (457128 / 10000) (-74006 / 1000)) 5 (by norm_num)
    (by simp [gridDistance, mkAt, nyc])
    (by simp [gridDistance, mkAt, nyc]; norm_num)

/-! ## The record normalizer -/

/-- The coordinate test rejects exactly a pair with a `NaN` or a zero in it. -/
theorem invalidCoordinates_iff (latitude longitude : JsNumber) :
    invalidCoordinates latitude longitude = true ↔
      latitude = .nan ∨ latitude = .fin 0 ∨ longitude = .nan ∨ longitude = .fin 0 := by
  cases latitude <;> cases longitude <;>
    simp [invalidCoordinates, JsNumber.truthy, JsNumber.isNaN, truthyNum]

/-- A `||` whose right operand is truthy is truthy. -/
theorem orVal_truthy (a b : JsVal) (hb : b.truthy = true) : (orVal a b).truthy = true := by
  unfold orVal
  by_cases ha : a.truthy = true
  · rw [if_pos ha]
    exact ha
  · rw [if_neg ha]
    exact hb

/-- The resolved hours are truthy: the chain ends in a non-empty text. -/
theorem resolvedHours_truthy (raw : RawBathroom) : (resolvedHours raw).truthy = true :=
  orVal_truthy _ _ (by decide)

/-- On a truthy value the hours evaluator throws exactly when the value is not text. -/
theorem isCurrentlyOpenOf_of_not_text (v : JsVal) (hv : v.truthy = true)
    (ht : v.text? = none) : isCurrentlyOpenOf v = .error .typeError := by
  cases v with
  | undefined => simp [JsVal.truthy] at hv
  | null => simp [JsVal.truthy] at hv
  | bool b => simp [isCurrentlyOpenOf, hv]
  | num n => simp [isCurrentlyOpenOf, hv]
  | str t => simp [JsVal.text?] at ht

/-- The function `normalizeBathroom` returns `null` exactly when the coordinate test
fires. -/
theorem normalizeBathroom_eq_none_iff (numberToString : JsNumber → String) (random : ℚ)
    (raw : RawBathroom) (type : String) :
    normalizeBathroom numberToString random raw type = .ok none ↔
      invalidCoordinates (resolvedLatitude raw) (resolvedLongitude raw) = true := by
  unfold normalizeBathroom
  by_cases h : invalidCoordinates (resolvedLatitude raw) (resolvedLongitude raw) = true
  · simp [h]
  · simp only [h, Bool.false_eq_true, if_false, iff_false]
    cases isCurrentlyOpenOf (resolvedHours raw) <;> simp

/-- The record `normalizeBathroom` returns when the coordinate test passes and the
resolved hours are text. -/
theorem normalizeBathroom_of_valid (numberToString : JsNumber → String) (random : ℚ)
    (raw : RawBathroom) (type : String) (t : String)
    (h : invalidCoordinates (resolvedLatitude raw) (resolvedLongitude raw) = false)
    (ht : resolvedHours raw = .str t) :
    normalizeBathroom numberToString random raw type
      = .ok (some
        { id :=
            orVal (orVal raw.objectid raw.id)
              (.str (type ++ "-" ++ numberToString (resolvedLatitude raw) ++ "-" ++
                numberToString (resolvedLongitude raw)))
          name :=
            orStr raw.name (orStr raw.location_name (orStr raw.site_name
              (orStr raw.park_name "Public Restroom")))
          latitude := resolvedLatitude raw
          longitude := resolvedLongitude raw
          address :=
            orStr raw.address (orStr raw.location
              (orStr raw.street_address "Address not available"))
          hours := t
          isAccessible := resolvedAccessible raw
          isOpen := isCurrentlyOpen (some t)
          rating := 7 / 2 + random * 1
          type := type
          distance := none }) := by
  unfold normalizeBathroom
  simp [h, ht, isCurrentlyOpenOf, JsVal.toText, JsVal.text?]

/-- The function `normalizeBathroom` throws when the coordinate test passes and the
resolved hours are not text. -/
theorem normalizeBathroom_throws (numberToString : JsNumber → String) (random : ℚ)
    (raw : RawBathroom) (type : String)
    (h : invalidCoordinates (resolvedLatitude raw) (resolvedLongitude raw) = false)
    (ht : (resolvedHours raw).text? = none) :
    normalizeBathroom numberToString random raw type = .error .typeError := by
  unfold normalizeBathroom
  simp [h, isCurrentlyOpenOf_of_not_text _ (resolvedHours_truthy raw) ht]

/-- A returned record comes from a raw record that passes the coordinate test and whose
resolved hours are text. -/
theorem valid_of_normalizeBathroom_eq_some (numberToString : JsNumber → String)
    (random : ℚ) (raw : RawBathroom) (type : String) (b : Bathroom)
    (h : normalizeBathroom numberToString random raw type = .ok (some b)) :
    invalidCoordinates (resolvedLatitude raw) (resolvedLongitude raw) = false ∧
    ∃ t, resolvedHours raw = .str t := by
  have hv : invalidCoordinates (resolvedLatitude raw) (resolvedLongitude raw) = false := by
    by_contra hc
    have hinv : invalidCoordinates (resolvedLatitude raw) (resolvedLongitude raw)
        = true := by
      simpa using hc
    rw [(normalizeBathroom_eq_none_iff numberToString random raw type).mpr hinv] at h
    cases h
  refine ⟨hv, ?_⟩
  cases hh : resolvedHours raw with
  | str t => exact ⟨t, rfl⟩
  | undefined =>
    rw [normalizeBathroom_throws numberToString random raw type hv (by rw [hh]; rfl)] at h
    cases h
  | null =>
    rw [normalizeBathroom_throws numberToString random raw type hv (by rw [hh]; rfl)] at h
    cases h
  | bool x =>
    rw [normalizeBathroom_throws numberToString random raw type hv (by rw [hh]; rfl)] at h
    cases h
  | num n =>
    rw [normalizeBathroom_throws numberToString random raw type hv (by rw [hh]; rfl)] at h
    cases h

/-- The texts of the examples, as `parseFloat` scans them. -/
theorem scanFloat_examples :
    scanFloat "40.7".data = .decimal false 407 (-1) ∧
    scanFloat "-74.006".data = .decimal true 74006 (-3) ∧
    scanFloat "Infinity".data = .infinity false ∧
    scanFloat "1e-999".data = .decimal false 1 (-999) ∧
    scanFloat "1e999".data = .decimal false 1 999 := by
  decide

/-- The doubles nearest to 40.7 and to 74.006, as significand and exponent. -/
theorem doubleParts_examples :
    doubleParts 407 10 = (5728015776061850, -47) ∧
    doubleParts 74006 1000 = (5207709281612202, -46) := by
  decide

set_option exponentiation.threshold 4000 in
/-- A decimal below half the least positive double rounds to 0, and one above the
greatest double rounds to `Infinity`. -/
theorem toDouble_out_of_range :
    toDouble false 1 (10 ^ 999) = .fin 0 ∧ toDouble false (1 * 10 ^ 999) 1 = .posInf := by
  have h1 : doubleParts 1 (10 ^ 999) = (0, -1074) := by decide
  have h2 : decide (972 ≤ (doubleParts (1 * 10 ^ 999) 1).2) = true := by decide
  have h3 : ¬ (1 * 10 ^ 999 = 0) := by decide
  constructor
  · unfold toDouble
    rw [h1]
    simp
  · unfold toDouble
    rw [if_neg h3, h2]
    rfl

/-- The two out-of-range decimals as `parseFloat` turns them into numbers. -/
theorem toNumber_out_of_range :
    Scanned.toNumber (.decimal false 1 (-999)) = .fin 0 ∧
    Scanned.toNumber (.decimal false 1 999) = .posInf := by
  have e1 : (-(-999 : Int)).toNat = 999 := by decide
  have e2 : (999 : Int).toNat = 999 := by decide
  constructor
  · simp only [Scanned.toNumber]
    rw [if_neg (by decide : ¬ (0 : Int) ≤ -999), e1]
    exact toDouble_out_of_range.1
  · simp only [Scanned.toNumber]
    rw [if_pos (by decide : (0 : Int) ≤ 999), e2]
    exact toDouble_out_of_range.2

/-- What `parseFloat` returns on the texts of the examples. -/
theorem parseFloat_examples :
    parseFloat (.str "40.7") = .fin number40_7 ∧
    parseFloat (.str "-74.006") = .fin numberMinus74_006 ∧
    parseFloat (.str "Infinity") = .posInf ∧
    parseFloat (.str "1e-999") = .fin 0 ∧
    parseFloat (.str "1e999") = .posInf := by
  refine ⟨?_, ?_, ?_, ?_, ?_⟩
  · simp [parseFloat, scanFloat_examples.1, Scanned.toNumber, toDouble,
      doubleParts_examples.1, number40_7]
    norm_num
  · simp [parseFloat, scanFloat_examples.2.1, Scanned.toNumber, toDouble,
      doubleParts_examples.2, numberMinus74_006]
    norm_num
  · simp [parseFloat, scanFloat_examples.2.2.1, Scanned.toNumber]
  · simp only [parseFloat]
    rw [scanFloat_examples.2.2.2.1]
    exact toNumber_out_of_range.1
  · simp only [parseFloat]
    rw [scanFloat_examples.2.2.2.2]
    exact toNumber_out_of_range.2

/-- The resolved latitude of the examples. -/
theorem resolvedLatitude_example (raw : RawBathroom) (h : raw.latitude = .str "40.7") :
    resolvedLatitude raw = .fin number40_7 := by
  simp [resolvedLatitude, h, orVal, JsVal.truthy, truthyStr, parseFloat_examples.1]

/-- The resolved longitude of the examples. -/
theorem resolvedLongitude_example (raw : RawBathroom) (h : raw.longitude = .str "-74.006") :
    resolvedLongitude raw = .fin numberMinus74_006 := by
  simp [resolvedLongitude, h, orVal, JsVal.truthy, truthyStr, parseFloat_examples.2.1]

/-- The two example numbers pass the coordinate test. -/
theorem valid_numbers :
    invalidCoordinates (.fin number40_7) (.fin numberMinus74_006) = false := by
  simp [invalidCoordinates, JsNumber.truthy, JsNumber.isNaN, truthyNum, number40_7,
    numberMinus74_006]

/-- A raw record with the coordinates of the examples passes the coordinate test. -/
theorem valid_example (raw : RawBathroom) (h1 : raw.latitude = .str "40.7")
    (h2 : raw.longitude = .str "-74.006") :
    invalidCoordinates (resolvedLatitude raw) (resolvedLongitude raw) = false := by
  rw [resolvedLatitude_example raw h1, resolvedLongitude_example raw h2]
  exact valid_numbers

/-- Without any of the hours fields the resolved hours are the fallback text. -/
theorem resolvedHours_default (raw : RawBathroom) (h1 : raw.hours_of_operation = .undefined)
    (h2 : raw.hours = .undefined) (h3 : raw.operation_hours = .undefined) :
    resolvedHours raw = .str "Hours vary" := by
  simp [resolvedHours, h1, h2, h3, orVal, JsVal.truthy]

/-- C14, as stated, fails: a raw record with valid coordinates and the number 24 as its
hours passes the coordinate test, and `normalizeBathroom` then neither returns `null` nor
a record: `isCurrentlyOpen(24)` throws a `TypeError`. -/
theorem normalizeBathroom_throws_on_numeric_hours :
    invalidCoordinates (resolvedLatitude rawNumericHours)
      (resolvedLongitude rawNumericHours) = false ∧
    normalizeBathroom showNumber 0 rawNumericHours "public" = .error .typeError := by
  have hv := valid_example rawNumericHours rfl rfl
  refine ⟨hv, normalizeBathroom_throws showNumber 0 rawNumericHours "public" hv ?_⟩
  simp [resolvedHours, rawNumericHours, orVal, JsVal.truthy, JsNumber.truthy, truthyNum,
    JsVal.text?]

/-- C14, amended: `normalizeBathroom` returns `null` exactly when the resolved latitude
or the resolved longitude is `NaN` (which is what a missing coordinate parses to) or
zero; otherwise, when the resolved hours are text, it returns a record carrying the two
parsed coordinates, and every record it returns carries them.  A raw record with
`latitude: 0, longitude: 0` is rejected, one with `latitude: "40.7"` and a valid
longitude is accepted with the number 40.7 (the double nearest to it) as its latitude,
and one whose latitude text rounds to zero is rejected. -/
theorem normalizeBathroom_validity_gate (numberToString : JsNumber → String) (random : ℚ)
    (raw : RawBathroom) (type : String) :
    (normalizeBathroom numberToString random raw type = .ok none ↔
      resolvedLatitude raw = .nan ∨ resolvedLatitude raw = .fin 0 ∨
      resolvedLongitude raw = .nan ∨ resolvedLongitude raw = .fin 0) ∧
    (¬ (resolvedLatitude raw = .nan ∨ resolvedLatitude raw = .fin 0 ∨
        resolvedLongitude raw = .nan ∨ resolvedLongitude raw = .fin 0) →
      ∀ t, resolvedHours raw = .str t →
      ∃ b, normalizeBathroom numberToString random raw type = .ok (some b) ∧
        b.latitude = resolvedLatitude raw ∧ b.longitude = resolvedLongitude raw) ∧
    (∀ b, normalizeBathroom numberToString random raw type = .ok (some b) →
      b.latitude = resolvedLatitude raw ∧ b.longitude = resolvedLongitude raw) ∧
    (raw.latitude = .undefined → raw.lat = .undefined → raw.the_geom = none →
      resolvedLatitude raw = .nan) ∧
    (raw.longitude = .undefined → raw.lon = .undefined → raw.lng = .undefined →
      raw.the_geom = none → resolvedLongitude raw = .nan) ∧
    normalizeBathroom numberToString random
        { latitude := .num (.fin 0), longitude := .num (.fin 0) } type = .ok none ∧
    (normalizeBathroom numberToString random
        { latitude := .str "40.7", longitude := .str "-74.006" } type).map
        (Option.map (fun b => (b.latitude, b.longitude)))
      = .ok (some (.fin number40_7, .fin numberMinus74_006)) ∧
    |number40_7 - 407 / 10| ≤ 1 / 2 ^ 48 ∧
    normalizeBathroom numberToString random
        { latitude := .str "1e-999", longitude := .str "-74.006" } type = .ok none := by
  refine ⟨?_, ?_, ?_, ?_, ?_, ?_, ?_, ?_, ?_⟩
  · rw [normalizeBathroom_eq_none_iff, invalidCoordinates_iff]
  · intro hgate t ht
    have hv : invalidCoordinates (resolvedLatitude raw) (resolvedLongitude raw) = false := by
      by_contra hc
      exact hgate ((invalidCoordinates_iff _ _).mp (by simpa using hc))
    exact ⟨_, normalizeBathroom_of_valid numberToString random raw type t hv ht, rfl, rfl⟩
  · intro b hb
    obtain ⟨hv, t, ht⟩ :=
      valid_of_normalizeBathroom_eq_some numberToString random raw type b hb
    rw [normalizeBathroom_of_valid numberToString random raw type t hv ht] at hb
    cases hb
    exact ⟨rfl, rfl⟩
  · intro h1 h2 h3
    simp [resolvedLatitude, h1, h2, h3, orVal, JsVal.truthy, geomCoordinate, parseFloat]
  · intro h1 h2 h3 h4
    simp [resolvedLongitude, h1, h2, h3, h4, orVal, JsVal.truthy, geomCoordinate,
      parseFloat]
  · rw [normalizeBathroom_eq_none_iff]
    simp [resolvedLatitude, resolvedLongitude, orVal, JsVal.truthy, JsNumber.truthy,
      truthyNum, geomCoordinate, parseFloat, invalidCoordinates]
  · rw [normalizeBathroom_of_valid numberToString random _ type "Hours vary"
      (valid_example _ rfl rfl) (resolvedHours_default _ rfl rfl rfl)]
    simp only [Except.map, Option.map_some']
    rw [resolvedLatitude_example _ rfl, resolvedLongitude_example _ rfl]
  · rw [number40_7]
    norm_num [abs_le]
  · rw [normalizeBathroom_eq_none_iff, invalidCoordinates_iff]
    right
    left
    simp [resolvedLatitude, orVal, JsVal.truthy, truthyStr, parseFloat_examples.2.2.2.1]

/-- A raw record without coordinates is rejected, and a raw record with a text latitude
and no hours field is accepted with the parsed numbers. -/
theorem normalizeBathroom_validity_gate_witness :
    normalizeBathroom showNumber 0 { name := some "Bryant Park" } "park" = .ok none ∧
    (∃ b, normalizeBathroom showNumber 0 rawPlain "park" = .ok (some b) ∧
      b.latitude = resolvedLatitude rawPlain ∧ b.longitude = resolvedLongitude rawPlain) :=
  ⟨(normalizeBathroom_validity_gate showNumber 0 { name := some "Bryant Park" } "park").1.mpr
      (Or.inl ((normalizeBathroom_validity_gate showNumber 0
        { name := some "Bryant Park" } "park").2.2.2.1 rfl rfl rfl)),
    (normalizeBathroom_validity_gate showNumber 0 rawPlain "park").2.1
      (by
        rw [resolvedLatitude_example rawPlain rfl, resolvedLongitude_example rawPlain rfl]
        simp [number40_7, numberMinus74_006])
      "Hours vary" (resolvedHours_default rawPlain rfl rfl rfl)⟩

/-- C15: a resolved coordinate that is not finite passes the coordinate test.  A raw
record whose latitude is the text "Infinity", a number that overflowed to `Infinity`, or
a text too large for a double, is accepted, and the record returned carries `Infinity`
as its latitude. -/
theorem normalizeBathroom_accepts_infinity (numberToString : JsNumber → String)
    (random : ℚ) (type : String) :
    (normalizeBathroom numberToString random
        { latitude := .str "Infinity", longitude := .str "-74.006" } type).map
        (Option.map (fun b => b.latitude)) = .ok (some .posInf) ∧
    (normalizeBathroom numberToString random
        { latitude := .num .posInf, longitude := .str "-74.006" } type).map
        (Option.map (fun b => b.latitude)) = .ok (some .posInf) ∧
    (normalizeBathroom numberToString random
        { latitude := .str "1e999", longitude := .str "-74.006" } type).map
        (Option.map (fun b => b.latitude)) = .ok (some .posInf) := by
  have hlat1 : resolvedLatitude { latitude := .str "Infinity", longitude := .str "-74.006" }
      = .posInf := by
    simp [resolvedLatitude, orVal, JsVal.truthy, truthyStr, parseFloat_examples.2.2.1]
  have hlat2 : resolvedLatitude { latitude := .num .posInf, longitude := .str "-74.006" }
      = .posInf := by
    simp [resolvedLatitude, orVal, JsVal.truthy, JsNumber.truthy, parseFloat]
  have hlat3 : resolvedLatitude { latitude := .str "1e999", longitude := .str "-74.006" }
      = .posInf := by
    simp [resolvedLatitude, orVal, JsVal.truthy, truthyStr, parseFloat_examples.2.2.2.2]
  have hinf : invalidCoordinates .posInf (.fin numberMinus74_006) = false := by
    simp [invalidCoordinates, JsNumber.truthy, JsNumber.isNaN, truthyNum, numberMinus74_006]
  have hv1 : invalidCoordinates
      (resolvedLatitude { latitude := .str "Infinity", longitude := .str "-74.006" })
      (resolvedLongitude { latitude := .str "Infinity", longitude := .str "-74.006" })
      = false := by
    rw [hlat1, resolvedLongitude_example _ rfl]
    exact hinf
  have hv2 : invalidCoordinates
      (resolvedLatitude { latitude := .num .posInf, longitude := .str "-74.006" })
      (resolvedLongitude { latitude := .num .posInf, longitude := .str "-74.006" })
      = false := by
    rw [hlat2, resolvedLongitude_example _ rfl]
    exact hinf
  have hv3 : invalidCoordinates
      (resolvedLatitude { latitude := .str "1e999", longitude := .str "-74.006" })
      (resolvedLongitude { latitude := .str "1e999", longitude := .str "-74.006" })
      = false := by
    rw [hlat3, resolvedLongitude_example _ rfl]
    exact hinf
  refine ⟨?_, ?_, ?_⟩
  · rw [normalizeBathroom_of_valid numberToString random _ type "Hours vary" hv1
      (resolvedHours_default _ rfl rfl rfl)]
    simp only [Except.map, Option.map_some']
    rw [hlat1]
  · rw [normalizeBathroom_of_valid numberToString random _ type "Hours vary" hv2
      (resolvedHours_default _ rfl rfl rfl)]
    simp only [Except.map, Option.map_some']
    rw [hlat2]
  · rw [normalizeBathroom_of_valid numberToString random _ type "Hours vary" hv3
      (resolvedHours_default _ rfl rfl rfl)]
    simp only [Except.map, Option.map_some']
    rw [hlat3]

/-- The accessibility flag of a returned record, alias by alias. -/
theorem normalizeBathroom_isAccessible (numberToString : JsNumber → String) (random : ℚ)
    (raw : RawBathroom) (type : String) (b : Bathroom)
    (h : normalizeBathroom numberToString random raw type = .ok (some b)) :
    (b.isAccessible = true ↔
      raw.ada_accessible = .str "Y" ∨ raw.ada_accessible = .bool true ∨
      raw.accessible = .str "Y" ∨ raw.accessible = .bool true ∨
      raw.handicap_accessible = .str "Y") := by
  obtain ⟨hv, t, ht⟩ := valid_of_normalizeBathroom_eq_some numberToString random raw type b h
  rw [normalizeBathroom_of_valid numberToString random raw type t hv ht] at h
  cases h
  simp [resolvedAccessible, or_assoc]

/-- C16: the accessibility flag misses one of the encodings.  A raw record whose only
accessibility field is `handicap_accessible: true` is accepted with `isAccessible`
false, while the same boolean under `ada_accessible` or `accessible`, and the text "Y"
under any of the three names, give true; a record with none of the fields gives false. -/
theorem normalizeBathroom_handicap_true_ignored (numberToString : JsNumber → String)
    (random : ℚ) (type : String) :
    (normalizeBathroom numberToString random
        { latitude := .str "40.7", longitude := .str "-74.006",
          handicap_accessible := .bool true } type).map
        (Option.map (fun b => b.isAccessible)) = .ok (some false) ∧
    (normalizeBathroom numberToString random
        { latitude := .str "40.7", longitude := .str "-74.006",
          accessible := .bool true } type).map
        (Option.map (fun b => b.isAccessible)) = .ok (some true) ∧
    (normalizeBathroom numberToString random
        { latitude := .str "40.7", longitude := .str "-74.006",
          ada_accessible := .bool true } type).map
        (Option.map (fun b => b.isAccessible)) = .ok (some true) ∧
    (normalizeBathroom numberToString random
        { latitude := .str "40.7", longitude := .str "-74.006",
          handicap_accessible := .str "Y" } type).map
        (Option.map (fun b => b.isAccessible)) = .ok (some true) ∧
    (normalizeBathroom numberToString random
        { latitude := .str "40.7", longitude := .str "-74.006",
          ada_accessible := .str "Y" } type).map
        (Option.map (fun b => b.isAccessible)) = .ok (some true) ∧
    (normalizeBathroom numberToString random
        { latitude := .str "40.7", longitude := .str "-74.006" } type).map
        (Option.map (fun b => b.isAccessible)) = .ok (some false) := by
  refine ⟨?_, ?_, ?_, ?_, ?_, ?_⟩ <;>
    (rw [normalizeBathroom_of_valid numberToString random _ type "Hours vary"
      (valid_example _ rfl rfl) (resolvedHours_default _ rfl rfl rfl)]
     simp [Except.map, resolvedAccessible])

/-- C17: the id of an accepted record is `objectid` when that is set (truthy), else `id`
when that is set, else the text made of the type and the two resolved coordinates; so
two raw records without either identifier, of the same type and with the same resolved
coordinates, get the same id. -/
theorem normalizeBathroom_id (numberToString : JsNumber → String) (random : ℚ)
    (raw : RawBathroom) (type : String) (b : Bathroom)
    (h : normalizeBathroom numberToString random raw type = .ok (some b)) :
    (raw.objectid.truthy = true → b.id = raw.objectid) ∧
    (raw.objectid.truthy = false → raw.id.truthy = true → b.id = raw.id) ∧
    (raw.objectid.truthy = false → raw.id.truthy = false →
      b.id = .str (type ++ "-" ++ numberToString (resolvedLatitude raw) ++ "-" ++
        numberToString (resolvedLongitude raw))) ∧
    (∀ (random2 : ℚ) (raw2 : RawBathroom) (b2 : Bathroom),
      normalizeBathroom numberToString random2 raw2 type = .ok (some b2) →
      raw.objectid.truthy = false → raw.id.truthy = false →
      raw2.objectid.truthy = false → raw2.id.truthy = false →
      resolvedLatitude raw2 = resolvedLatitude raw →
      resolvedLongitude raw2 = resolvedLongitude raw → b2.id = b.id) := by
  obtain ⟨hv, t, ht⟩ := valid_of_normalizeBathroom_eq_some numberToString random raw type b h
  rw [normalizeBathroom_of_valid numberToString random raw type t hv ht] at h
  cases h
  refine ⟨?_, ?_, ?_, ?_⟩
  · intro h1
    simp [orVal, h1]
  · intro h1 h2
    simp [orVal, h1, h2]
  · intro h1 h2
    simp [orVal, h1, h2]
  · intro random2 raw2 b2 hb2 h1 h2 h3 h4 hlat hlon
    obtain ⟨hv2, t2, ht2⟩ :=
      valid_of_normalizeBathroom_eq_some numberToString random2 raw2 type b2 hb2
    rw [normalizeBathroom_of_valid numberToString random2 raw2 type t2 hv2 ht2] at hb2
    cases hb2
    simp [orVal, h1, h2, h3, h4, hlat, hlon]

/-- The resolved hours of the parks record of the examples. -/
theorem resolvedHours_rawPark : resolvedHours rawPark = .str "8am-4pm" := by
  simp [resolvedHours, rawPark, orVal, JsVal.truthy, truthyStr]

/-- A parks record with the identifier "17" keeps it as its id. -/
theorem normalizeBathroom_id_witness :
    ∃ b, normalizeBathroom showNumber 0 rawPark "park" = .ok (some b) ∧ b.id = .str "17" :=
  ⟨_, normalizeBathroom_of_valid showNumber 0 rawPark "park" "8am-4pm"
      (valid_example _ rfl rfl) resolvedHours_rawPark,
    (normalizeBathroom_id showNumber 0 rawPark "park" _
      (normalizeBathroom_of_valid showNumber 0 rawPark "park" "8am-4pm"
        (valid_example _ rfl rfl) resolvedHours_rawPark)).1 rfl⟩

/-- A chain of `||` over optional texts ending in a text is the first non-empty one. -/
theorem orStr_eq_firstNonEmpty (a : Option String) (rest : List (Option String))
    (fallback : String) :
    orStr a (firstNonEmpty rest fallback) = firstNonEmpty (a :: rest) fallback := by
  cases a with
  | none => rfl
  | some s => simp [orStr, firstNonEmpty, truthyStr]

/-- The first non-empty value is not empty when the fallback is not. -/
theorem firstNonEmpty_ne_empty (aliases : List (Option String)) (fallback : String)
    (h : fallback ≠ "") : firstNonEmpty aliases fallback ≠ "" := by
  induction aliases with
  | nil => exact h
  | cons a rest ih =>
    cases a with
    | none => exact ih
    | some s =>
      by_cases hs : s = ""
      · simpa [firstNonEmpty, hs] using ih
      · simp [firstNonEmpty, hs]

/-- A falsy value is skipped when the first non-empty text is looked for. -/
theorem firstNonEmpty_skip (v : JsVal) (rest : List (Option String)) (fallback : String)
    (hv : v.truthy = false) :
    firstNonEmpty (v.text? :: rest) fallback = firstNonEmpty rest fallback := by
  cases v with
  | str t =>
    have ht : t = "" := by simpa [JsVal.truthy, truthyStr] using hv
    simp [JsVal.text?, firstNonEmpty, ht]
  | undefined => rfl
  | null => rfl
  | bool x => rfl
  | num n => rfl

/-- A non-empty text is taken when the first non-empty text is looked for. -/
theorem firstNonEmpty_take (t : String) (rest : List (Option String)) (fallback : String)
    (ht : (JsVal.str t).truthy = true) :
    firstNonEmpty ((JsVal.str t).text? :: rest) fallback = t := by
  have hne : t ≠ "" := by simpa [JsVal.truthy, truthyStr] using ht
  simp [JsVal.text?, firstNonEmpty, hne]

/-- Resolved hours that are text are the first non-empty text among the hours fields, or
the fallback. -/
theorem resolvedHours_eq_firstNonEmpty (raw : RawBathroom) (t : String)
    (ht : resolvedHours raw = .str t) :
    t = firstNonEmpty
      [raw.hours_of_operation.text?, raw.hours.text?, raw.operation_hours.text?]
      "Hours vary" := by
  unfold resolvedHours orVal at ht
  by_cases h1 : raw.hours_of_operation.truthy = true
  · simp only [h1, if_true] at ht
    rw [ht] at h1 ⊢
    exact (firstNonEmpty_take t _ _ h1).symm
  · have h1f : raw.hours_of_operation.truthy = false := by simpa using h1
    rw [firstNonEmpty_skip _ _ _ h1f]
    by_cases h2 : raw.hours.truthy = true
    · simp only [h1f, h2, if_true, Bool.false_eq_true, if_false] at ht
      rw [ht] at h2 ⊢
      exact (firstNonEmpty_take t _ _ h2).symm
    · have h2f : raw.hours.truthy = false := by simpa using h2
      rw [firstNonEmpty_skip _ _ _ h2f]
      by_cases h3 : raw.operation_hours.truthy = true
      · simp only [h1f, h2f, h3, if_true, Bool.false_eq_true, if_false] at ht
        rw [ht] at h3 ⊢
        exact (firstNonEmpty_take t _ _ h3).symm
      · have h3f : raw.operation_hours.truthy = false := by simpa using h3
        rw [firstNonEmpty_skip _ _ _ h3f]
        simp only [h1f, h2f, h3f, Bool.false_eq_true, if_false] at ht
        cases ht
        rfl

/-- C18: in an accepted record the name, the address and the hours are not empty: each
is the first non-empty value of its aliases, in their order, and its fallback text when
all of them are absent or empty. -/
theorem normalizeBathroom_text_fields (numberToString : JsNumber → String) (random : ℚ)
    (raw : RawBathroom) (type : String) (b : Bathroom)
    (h : normalizeBathroom numberToString random raw type = .ok (some b)) :
    b.name ≠ "" ∧ b.address ≠ "" ∧ b.hours ≠ "" ∧
    b.name = firstNonEmpty [raw.name, raw.location_name, raw.site_name, raw.park_name]
      "Public Restroom" ∧
    b.address = firstNonEmpty [raw.address, raw.location, raw.street_address]
      "Address not available" ∧
    b.hours = firstNonEmpty
      [raw.hours_of_operation.text?, raw.hours.text?, raw.operation_hours.text?]
      "Hours vary" := by
  obtain ⟨hv, t, ht⟩ := valid_of_normalizeBathroom_eq_some numberToString random raw type b h
  rw [normalizeBathroom_of_valid numberToString random raw type t hv ht] at h
  cases h
  have hname : orStr raw.name (orStr raw.location_name (orStr raw.site_name
      (orStr raw.park_name "Public Restroom")))
      = firstNonEmpty [raw.name, raw.location_name, raw.site_name, raw.park_name]
        "Public Restroom" := by
    rw [← orStr_eq_firstNonEmpty, ← orStr_eq_firstNonEmpty, ← orStr_eq_firstNonEmpty,
      ← orStr_eq_firstNonEmpty]
    rfl
  have haddr : orStr raw.address (orStr raw.location
      (orStr raw.street_address "Address not available"))
      = firstNonEmpty [raw.address, raw.location, raw.street_address]
        "Address not available" := by
    rw [← orStr_eq_firstNonEmpty, ← orStr_eq_firstNonEmpty, ← orStr_eq_firstNonEmpty]
    rfl
  have hhours := resolvedHours_eq_firstNonEmpty raw t ht
  refine ⟨?_, ?_, ?_, hname, haddr, hhours⟩
  · show orStr _ _ ≠ ""
    rw [hname]
    exact firstNonEmpty_ne_empty _ _ (by decide)
  · show orStr _ _ ≠ ""
    rw [haddr]
    exact firstNonEmpty_ne_empty _ _ (by decide)
  · show t ≠ ""
    rw [hhours]
    exact firstNonEmpty_ne_empty _ _ (by decide)

/-- A parks record with an empty name and a site name: the name is the site name, the
address is the fallback, the hours are the ones given. -/
theorem normalizeBathroom_text_fields_witness :
    ∃ b, normalizeBathroom showNumber 0 rawPark "park" = .ok (some b) ∧
      b.name = "Bryant Park" ∧ b.address = "Address not available" ∧
      b.hours = "8am-4pm" :=
  ⟨_, normalizeBathroom_of_valid showNumber 0 rawPark "park" "8am-4pm"
      (valid_example _ rfl rfl) resolvedHours_rawPark,
    (normalizeBathroom_text_fields showNumber 0 rawPark "park" _
      (normalizeBathroom_of_valid showNumber 0 rawPark "park" "8am-4pm"
        (valid_example _ rfl rfl) resolvedHours_rawPark)).2.2.2.1.trans (by decide),
    (normalizeBathroom_text_fields showNumber 0 rawPark "park" _
      (normalizeBathroom_of_valid showNumber 0 rawPark "park" "8am-4pm"
        (valid_example _ rfl rfl) resolvedHours_rawPark)).2.2.2.2.1.trans (by decide),
    (normalizeBathroom_text_fields showNumber 0 rawPark "park" _
      (normalizeBathroom_of_valid showNumber 0 rawPark "park" "8am-4pm"
        (valid_example _ rfl rfl) resolvedHours_rawPark)).2.2.2.2.2.trans (by decide)⟩

/-! ## Batch normalization -/

/-- A map whose callback returns on every element returns the list of the results. -/
theorem mapThrowing_ok {α β : Type} (f : α → Except JsError β) (g : α → β) (l : List α)
    (h : ∀ a ∈ l, f a = .ok (g a)) : mapThrowing f l = .ok (l.map g) := by
  induction l with
  | nil => rfl
  | cons a rest ih =>
    have ha := h a (List.mem_cons_self _ _)
    have hrest := ih (fun x hx => h x (List.mem_cons_of_mem _ hx))
    simp [mapThrowing, ha, hrest]

/-- A map throws when its callback throws on some element. -/
theorem mapThrowing_error {α β : Type} (f : α → Except JsError β) (l : List α) (a : α)
    (ha : a ∈ l) (h : f a = .error .typeError) : mapThrowing f l = .error .typeError := by
  induction l with
  | nil => cases ha
  | cons x rest ih =>
    unfold mapThrowing
    cases hx : f x with
    | error e =>
      cases e
      rfl
    | ok b =>
      have hmem : a ∈ rest := by
        rcases List.mem_cons.mp ha with hax | hmem
        · rw [hax, hx] at h
          cases h
        · exact hmem
      simp [ih hmem]

/-- Every result of a map that returned is the result of its callback on an element. -/
theorem mapThrowing_mem {α β : Type} (f : α → Except JsError β) (l : List α)
    (out : List β) (h : mapThrowing f l = .ok out) :
    ∀ y ∈ out, ∃ a ∈ l, f a = .ok y := by
  induction l generalizing out with
  | nil =>
    simp only [mapThrowing, Except.ok.injEq] at h
    subst h
    intro y hy
    cases hy
  | cons x rest ih =>
    unfold mapThrowing at h
    cases hx : f x with
    | error e => simp [hx] at h
    | ok b =>
      cases hr : mapThrowing f rest with
      | error e => simp [hx, hr] at h
      | ok bs =>
        simp only [hx, hr, Except.ok.injEq] at h
        subst h
        intro y hy
        rcases List.mem_cons.mp hy with hyb | hys
        · exact ⟨x, List.mem_cons_self _ _, by rw [hx, hyb]⟩
        · obtain ⟨a, ha, hfa⟩ := ih bs hr y hys
          exact ⟨a, List.mem_cons_of_mem _ ha, hfa⟩

/-- A raw record is safe when, with valid coordinates, its resolved hours are text; on a
safe raw record `normalizeBathroom` returns. -/
theorem normalizeBathroom_ok_of_safe (numberToString : JsNumber → String) (random : ℚ)
    (raw : RawBathroom) (type : String)
    (hsafe : invalidCoordinates (resolvedLatitude raw) (resolvedLongitude raw) = false →
      ∃ t, resolvedHours raw = .str t) :
    normalizeBathroom numberToString random raw type
      = .ok (returnedValue numberToString random raw type) := by
  unfold returnedValue
  by_cases hv : invalidCoordinates (resolvedLatitude raw) (resolvedLongitude raw) = true
  · rw [(normalizeBathroom_eq_none_iff numberToString random raw type).mpr hv]
  · have hv2 : invalidCoordinates (resolvedLatitude raw) (resolvedLongitude raw)
        = false := by simpa using hv
    obtain ⟨t, ht⟩ := hsafe hv2
    rw [normalizeBathroom_of_valid numberToString random raw type t hv2 ht]

/-- The value returned is `null` exactly when the coordinate test fires, on a safe raw
record. -/
theorem returnedValue_eq_none_iff (numberToString : JsNumber → String) (random : ℚ)
    (raw : RawBathroom) (type : String)
    (hsafe : invalidCoordinates (resolvedLatitude raw) (resolvedLongitude raw) = false →
      ∃ t, resolvedHours raw = .str t) :
    returnedValue numberToString random raw type = none ↔
      invalidCoordinates (resolvedLatitude raw) (resolvedLongitude raw) = true := by
  rw [← normalizeBathroom_eq_none_iff numberToString random raw type,
    normalizeBathroom_ok_of_safe numberToString random raw type hsafe]
  simp

/-- A member of the enumeration of a list is a member of the list. -/
theorem mem_of_mem_enum {α : Type} (l : List α) (p : Nat × α) (hp : p ∈ l.enum) :
    p.2 ∈ l := by
  have h := List.mem_enum hp
  exact List.mem_iff_get.mpr ⟨⟨p.1, h.1⟩, by simpa using h.2.symm⟩

/-- On a dataset of safe raw records the normalization returns, and what is left after
the invalid entries are removed is the list of the results on the raw records that pass
the coordinate test. -/
theorem normalizeDataset_of_safe (numberToString : JsNumber → String)
    (random : Nat → ℚ) (dataset : List RawBathroom) (type : String)
    (hsafe : ∀ raw ∈ dataset,
      invalidCoordinates (resolvedLatitude raw) (resolvedLongitude raw) = false →
      ∃ t, resolvedHours raw = .str t) :
    normalizeDataset numberToString random dataset type
        = .ok (dataset.enum.map (fun p => returnedValue numberToString (random p.1) p.2 type)) ∧
    (removeInvalid
        (dataset.enum.map (fun p => returnedValue numberToString (random p.1) p.2 type))).map
        Except.ok
      = (dataset.enum.filter (fun p =>
          !invalidCoordinates (resolvedLatitude p.2) (resolvedLongitude p.2))).map
        (fun p => normalizeBathroom numberToString (random p.1) p.2 type) := by
  constructor
  · unfold normalizeDataset
    apply mapThrowing_ok
    intro p hp
    exact normalizeBathroom_ok_of_safe numberToString (random p.1) p.2 type
      (hsafe p.2 (mem_of_mem_enum dataset p hp))
  · unfold removeInvalid
    rw [List.filter_map, List.map_map]
    have hfilter : dataset.enum.filter ((fun b => decide (b ≠ none)) ∘
          fun p => returnedValue numberToString (random p.1) p.2 type)
        = dataset.enum.filter (fun p =>
          !invalidCoordinates (resolvedLatitude p.2) (resolvedLongitude p.2)) := by
      apply List.filter_congr
      intro p hp
      have hs := hsafe p.2 (mem_of_mem_enum dataset p hp)
      have hiff := returnedValue_eq_none_iff numberToString (random p.1) p.2 type hs
      by_cases hv : invalidCoordinates (resolvedLatitude p.2) (resolvedLongitude p.2) = true
      · simp [hv, hiff.mpr hv]
      · have hne : returnedValue numberToString (random p.1) p.2 type ≠ none :=
          fun hn => hv (hiff.mp hn)
        simp [hv, hne]
    rw [hfilter]
    apply List.map_congr_left
    intro p hp
    have hp2 := (List.mem_filter.mp hp).1
    exact (normalizeBathroom_ok_of_safe numberToString (random p.1) p.2 type
      (hsafe p.2 (mem_of_mem_enum dataset p hp2))).symm

/-- C19, as stated, fails: the batch can fail.  One raw record with valid coordinates
and the number 24 as its hours makes `normalizeBathroom` throw inside the map, so the
normalization of its dataset, and with it the whole of `allBathrooms`, has no result;
the valid records next to it are lost with it. -/
theorem normalizeDataset_throws_on_numeric_hours :
    normalizeDataset showNumber (fun _ => 0) [rawPark, rawNumericHours, rawPlain] "park"
      = .error .typeError ∧
    allBathrooms showNumber (fun _ => 0) (fun _ => 0) (fun _ => 0)
        [rawPark] [rawNumericHours] [rawPlain] = .error .typeError := by
  have hthrow : normalizeBathroom showNumber 0 rawNumericHours "park" = .error .typeError := by
    refine normalizeBathroom_throws showNumber 0 rawNumericHours "park"
      (valid_example rawNumericHours rfl rfl) ?_
    simp [resolvedHours, rawNumericHours, orVal, JsVal.truthy, JsNumber.truthy, truthyNum,
      JsVal.text?]
  have hthrow2 : normalizeBathroom showNumber 0 rawNumericHours "apt" = .error .typeError := by
    refine normalizeBathroom_throws showNumber 0 rawNumericHours "apt"
      (valid_example rawNumericHours rfl rfl) ?_
    simp [resolvedHours, rawNumericHours, orVal, JsVal.truthy, JsNumber.truthy, truthyNum,
      JsVal.text?]
  have hpark : normalizeBathroom showNumber 0 rawPark "public"
      = .ok (returnedValue showNumber 0 rawPark "public") :=
    normalizeBathroom_ok_of_safe showNumber 0 rawPark "public"
      (fun _ => ⟨_, resolvedHours_rawPark⟩)
  constructor
  · exact mapThrowing_error _ _ (1, rawNumericHours) (by simp [List.enum, List.enumFrom])
      hthrow
  · have h1 : normalizeDataset showNumber (fun _ => 0) [rawPark] "public"
        = .ok [returnedValue showNumber 0 rawPark "public"] := by
      simp [normalizeDataset, List.enum, List.enumFrom, mapThrowing, hpark]
    have h2 : normalizeDataset showNumber (fun _ => 0) [rawNumericHours] "apt"
        = .error .typeError :=
      mapThrowing_error _ _ (0, rawNumericHours) (by simp [List.enum, List.enumFrom])
        hthrow2
    simp [allBathrooms, h1, h2]

/-- C19, amended: on raw records whose resolved hours are text whenever their
coordinates are valid, batch normalization does not fail and drops the invalid entries
and nothing else.  The result has no `null` in it, is the list of the normalizations of
the raw records that pass the coordinate test, in input order, and is not longer than
the input; when no raw record passes, and when there is none, it is empty.  The three
datasets of `fetchAllBathrooms` put together give the three such lists one after the
other, each under its type. -/
theorem removeInvalid_drops_invalid (numberToString : JsNumber → String)
    (random : Nat → ℚ) (dataset : List RawBathroom) (type : String)
    (hsafe : ∀ raw ∈ dataset,
      invalidCoordinates (resolvedLatitude raw) (resolvedLongitude raw) = false →
      ∃ t, resolvedHours raw = .str t) :
    ∃ normalized, normalizeDataset numberToString random dataset type = .ok normalized ∧
      none ∉ removeInvalid normalized ∧
      (removeInvalid normalized).map Except.ok
        = (dataset.enum.filter (fun p =>
            !invalidCoordinates (resolvedLatitude p.2) (resolvedLongitude p.2))).map
          (fun p => normalizeBathroom numberToString (random p.1) p.2 type) ∧
      (removeInvalid normalized).length ≤ dataset.length ∧
      ((∀ raw ∈ dataset,
          invalidCoordinates (resolvedLatitude raw) (resolvedLongitude raw) = true) →
        removeInvalid normalized = []) ∧
      (dataset = [] → removeInvalid normalized = []) ∧
      (∀ (random2 random3 : Nat → ℚ) (automatic parks : List RawBathroom),
        (∀ raw ∈ automatic,
          invalidCoordinates (resolvedLatitude raw) (resolvedLongitude raw) = false →
          ∃ t, resolvedHours raw = .str t) →
        (∀ raw ∈ parks,
          invalidCoordinates (resolvedLatitude raw) (resolvedLongitude raw) = false →
          ∃ t, resolvedHours raw = .str t) →
        ∃ all, allBathrooms numberToString random random2 random3 dataset automatic parks
            = .ok all ∧
          none ∉ all ∧
          all.map Except.ok
            = (dataset.enum.filter (fun p =>
                !invalidCoordinates (resolvedLatitude p.2) (resolvedLongitude p.2))).map
              (fun p => normalizeBathroom numberToString (random p.1) p.2 "public") ++
              (automatic.enum.filter (fun p =>
                !invalidCoordinates (resolvedLatitude p.2) (resolvedLongitude p.2))).map
              (fun p => normalizeBathroom numberToString (random2 p.1) p.2 "apt") ++
              (parks.enum.filter (fun p =>
                !invalidCoordinates (resolvedLatitude p.2) (resolvedLongitude p.2))).map
              (fun p => normalizeBathroom numberToString (random3 p.1) p.2 "park") ∧
          all.length ≤ dataset.length + automatic.length + parks.length) := by
  have hnonull : ∀ l : List (Option Bathroom), none ∉ removeInvalid l := by
    intro l hmem
    have := (List.mem_filter.mp hmem).2
    simp at this
  obtain ⟨hok, hmap⟩ := normalizeDataset_of_safe numberToString random dataset type hsafe
  refine ⟨_, hok, hnonull _, hmap, ?_, ?_, ?_, ?_⟩
  · calc (removeInvalid (dataset.enum.map
          (fun p => returnedValue numberToString (random p.1) p.2 type))).length
        ≤ (dataset.enum.map
          (fun p => returnedValue numberToString (random p.1) p.2 type)).length :=
          List.length_filter_le _ _
      _ = dataset.length := by simp
  · intro hall
    have hnil : dataset.enum.filter (fun p =>
        !invalidCoordinates (resolvedLatitude p.2) (resolvedLongitude p.2)) = [] := by
      rw [List.filter_eq_nil_iff]
      intro p hp
      simp [hall p.2 (mem_of_mem_enum dataset p hp)]
    rw [hnil] at hmap
    exact List.map_eq_nil_iff.mp hmap
  · intro hempty
    subst hempty
    rfl
  · intro random2 random3 automatic parks hsafe2 hsafe3
    obtain ⟨hok1, hmap1⟩ :=
      normalizeDataset_of_safe numberToString random dataset "public" hsafe
    obtain ⟨hok2, hmap2⟩ :=
      normalizeDataset_of_safe numberToString random2 automatic "apt" hsafe2
    obtain ⟨hok3, hmap3⟩ :=
      normalizeDataset_of_safe numberToString random3 parks "park" hsafe3
    refine ⟨removeInvalid (dataset.enum.map
          (fun p => returnedValue numberToString (random p.1) p.2 "public") ++
        automatic.enum.map
          (fun p => returnedValue numberToString (random2 p.1) p.2 "apt") ++
        parks.enum.map
          (fun p => returnedValue numberToString (random3 p.1) p.2 "park")),
      by simp only [allBathrooms, hok1, hok2, hok3], hnonull _, ?_, ?_⟩
    · rw [← hmap1, ← hmap2, ← hmap3]
      simp only [removeInvalid, List.filter_append, List.map_append]
    · calc (removeInvalid (dataset.enum.map
              (fun p => returnedValue numberToString (random p.1) p.2 "public") ++
            automatic.enum.map
              (fun p => returnedValue numberToString (random2 p.1) p.2 "apt") ++
            parks.enum.map
              (fun p => returnedValue numberToString (random3 p.1) p.2 "park"))).length
          ≤ (dataset.enum.map
              (fun p => returnedValue numberToString (random p.1) p.2 "public") ++
            automatic.enum.map
              (fun p => returnedValue numberToString (random2 p.1) p.2 "apt") ++
            parks.enum.map
              (fun p => returnedValue numberToString (random3 p.1) p.2 "park")).length :=
            List.length_filter_le _ _
        _ = dataset.length + automatic.length + parks.length := by
            simp [Nat.add_assoc]

/-- The raw records of the batch example are safe. -/
theorem batch_example_safe :
    ∀ raw ∈ [rawPark, rawNowhere, rawPlain],
      invalidCoordinates (resolvedLatitude raw) (resolvedLongitude raw) = false →
      ∃ t, resolvedHours raw = .str t := by
  intro raw hraw _
  simp only [List.mem_cons, List.mem_singleton, List.not_mem_nil, or_false] at hraw
  rcases hraw with h | h | h
  · exact ⟨_, by rw [h]; exact resolvedHours_rawPark⟩
  · exact ⟨_, by rw [h]; exact resolvedHours_default rawNowhere rfl rfl rfl⟩
  · exact ⟨_, by rw [h]; exact resolvedHours_default rawPlain rfl rfl rfl⟩

/-- The raw record of the examples without usable coordinates fails the coordinate
test. -/
theorem invalid_rawNowhere :
    invalidCoordinates (resolvedLatitude rawNowhere) (resolvedLongitude rawNowhere)
      = true := by
  simp [rawNowhere, resolvedLatitude, resolvedLongitude, orVal, JsVal.truthy,
    JsNumber.truthy, truthyNum, geomCoordinate, parseFloat, invalidCoordinates]

/-- A dataset of an invalid record between two valid ones comes out as the two valid
ones, in their order. -/
theorem removeInvalid_drops_invalid_witness :
    ∃ normalized,
      normalizeDataset showNumber (fun _ => 0) [rawPark, rawNowhere, rawPlain] "park"
        = .ok normalized ∧
      (removeInvalid normalized).map Except.ok
        = [normalizeBathroom showNumber 0 rawPark "park",
          normalizeBathroom showNumber 0 rawPlain "park"] := by
  obtain ⟨normalized, hok, _, hmap, _⟩ :=
    removeInvalid_drops_invalid showNumber (fun _ => 0) [rawPark, rawNowhere, rawPlain]
      "park" batch_example_safe
  refine ⟨normalized, hok, ?_⟩
  rw [hmap]
  have hv1 : invalidCoordinates (resolvedLatitude rawPark) (resolvedLongitude rawPark)
      = false := valid_example _ rfl rfl
  have hv2 : invalidCoordinates (resolvedLatitude rawPlain) (resolvedLongitude rawPlain)
      = false := valid_example _ rfl rfl
  simp [List.enum, List.enumFrom, hv1, hv2, invalid_rawNowhere]

/-! ## Normalized records are open -/

/-- The hours evaluator answers true on every text that is not empty. -/
theorem isCurrentlyOpen_of_ne_empty (s : String) (h : s ≠ "") :
    isCurrentlyOpen (some s) = true := by
  simp [isCurrentlyOpen, truthyStr, h]

/-- The hours of a returned record are not empty and its open flag is set. -/
theorem isOpen_of_normalizeBathroom (numberToString : JsNumber → String) (random : ℚ)
    (raw : RawBathroom) (type : String) (b : Bathroom)
    (h : normalizeBathroom numberToString random raw type = .ok (some b)) :
    b.hours ≠ "" ∧ b.isOpen = true := by
  obtain ⟨hv, t, ht⟩ := valid_of_normalizeBathroom_eq_some numberToString random raw type b h
  rw [normalizeBathroom_of_valid numberToString random raw type t hv ht] at h
  cases h
  have hne : t ≠ "" := by
    have htr := resolvedHours_truthy raw
    rw [ht] at htr
    simpa [JsVal.truthy, truthyStr] using htr
  exact ⟨hne, isCurrentlyOpen_of_ne_empty t hne⟩

/-- Every record of a normalized dataset is a result of `normalizeBathroom`. -/
theorem records_normalized (numberToString : JsNumber → String) (random : Nat → ℚ)
    (dataset : List RawBathroom) (type : String) :
    ∀ b ∈ datasetRecords numberToString random dataset type,
      ∃ (r : ℚ) (raw : RawBathroom) (t : String) (b0 : Bathroom),
        normalizeBathroom numberToString r raw t = .ok (some b0) ∧
        ∃ d, b = { b0 with distance := d } := by
  intro b hb
  unfold datasetRecords at hb
  cases hds : normalizeDataset numberToString random dataset type with
  | error e =>
    rw [hds] at hb
    cases hb
  | ok normalized =>
    rw [hds] at hb
    simp only [records] at hb
    rw [List.mem_filterMap] at hb
    obtain ⟨x, hx, hxb⟩ := hb
    have hx2 := (List.mem_filter.mp hx).1
    simp only [id_eq] at hxb
    rw [hxb] at hx2
    obtain ⟨p, _, hp⟩ := mapThrowing_mem _ _ normalized hds (some b) hx2
    exact ⟨random p.1, p.2, type, b, hp, b.distance, rfl⟩

/-- C21: every record `normalizeBathroom` returns has non-empty hours and `isOpen` true,
whatever the raw record.  Hence on a list of such records, with or without a distance
added afterwards, the `openNow` step of `applyFilters` removes nothing (the filter gives
the same result with `openNow` on and off), the open-only filter of `urgentSort` removes
nothing, and `urgentSort` returns a rearrangement of the whole list. -/
theorem normalized_records_all_open (numberToString : JsNumber → String) :
    (∀ (random : ℚ) (raw : RawBathroom) (type : String) (b : Bathroom),
      normalizeBathroom numberToString random raw type = .ok (some b) →
      b.hours ≠ "" ∧ b.isOpen = true) ∧
    (∀ l : List Bathroom,
      (∀ b ∈ l, ∃ (random : ℚ) (raw : RawBathroom) (type : String) (b0 : Bathroom),
        normalizeBathroom numberToString random raw type = .ok (some b0) ∧
        ∃ d, b = { b0 with distance := d }) →
      (∀ cfg : Filters, stageOpenNow cfg l = l) ∧
      (∀ cfg : Filters,
        applyFilters l { cfg with openNow := true }
          = applyFilters l { cfg with openNow := false }) ∧
      l.filter (fun b => b.isOpen) = l ∧
      (∀ ref : Option Location, (urgentSort l ref).Perm l)) := by
  constructor
  · intro random raw type b h
    exact isOpen_of_normalizeBathroom numberToString random raw type b h
  · intro l hl
    have hopen : ∀ b ∈ l, b.isOpen = true := by
      intro b hb
      obtain ⟨random, raw, type, b0, h0, d, hd⟩ := hl b hb
      rw [hd]
      exact (isOpen_of_normalizeBathroom numberToString random raw type b0 h0).2
    have hfilter : l.filter (fun b => b.isOpen) = l :=
      List.filter_eq_self.mpr hopen
    refine ⟨?_, ?_, hfilter, ?_⟩
    · intro cfg
      unfold stageOpenNow
      by_cases hc : cfg.openNow = true
      · rw [if_pos hc]
        exact hfilter
      · rw [if_neg hc]
    · intro cfg
      rw [applyFilters_eq_stages, applyFilters_eq_stages]
      have h1 : stageOpenNow { cfg with openNow := true } l = l := by
        simp only [stageOpenNow, if_true]
        exact hfilter
      have h2 : stageOpenNow { cfg with openNow := false } l = l := by
        simp [stageOpenNow]
      rw [h1, h2]
      rfl
    · intro ref
      cases ref with
      | none => simp [urgentSort]
      | some loc =>
        rw [urgentSort_some, hfilter]
        exact jsSort_perm _ _

/-- A batch of two valid raw records and an invalid one gives two records, and the
`openNow` step keeps both. -/
theorem normalized_records_all_open_witness :
    (datasetRecords showNumber (fun _ => 0) [rawPark, rawNowhere, rawPlain] "park").length
      = 2 ∧
    stageOpenNow ⟨true, false, 0, "all"⟩
        (datasetRecords showNumber (fun _ => 0) [rawPark, rawNowhere, rawPlain] "park")
      = datasetRecords showNumber (fun _ => 0) [rawPark, rawNowhere, rawPlain] "park" := by
  constructor
  · have hv1 : invalidCoordinates (resolvedLatitude rawPark) (resolvedLongitude rawPark)
        = false := valid_example _ rfl rfl
    have hv2 : invalidCoordinates (resolvedLatitude rawPlain) (resolvedLongitude rawPlain)
        = false := valid_example _ rfl rfl
    have h1 := normalizeBathroom_of_valid showNumber 0 rawPark "park" "8am-4pm" hv1
      resolvedHours_rawPark
    have h2 := normalizeBathroom_of_valid showNumber 0 rawPlain "park" "Hours vary" hv2
      (resolvedHours_default rawPlain rfl rfl rfl)
    have h3 := (normalizeBathroom_eq_none_iff showNumber 0 rawNowhere "park").mpr
      invalid_rawNowhere
    simp [datasetRecords, normalizeDataset, List.enum, List.enumFrom, mapThrowing, h1, h2,
      h3, records, removeInvalid]
  · exact ((normalized_records_all_open showNumber).2 _
      (records_normalized showNumber (fun _ => 0) [rawPark, rawNowhere, rawPlain]
        "park")).1 ⟨true, false, 0, "all"⟩

end BathroomFinder
